import Mathlib

/-!
Verification of the order/payment/coupon core of the lms_server backend.

The definitions below are a shallow embedding, translated function by
function from the TypeScript source:

* `src/services/payment/payment.service.ts` — order lifecycle
  (`initiateBuyNowOrder`, `verifyPaymentSignature`, `initiateCartCheckout`,
  `verifyCartPayment`),
* `src/controller/payment.controller.ts` — `cancelOrder`,
* `src/services/payment/providers/razorpay.provider.ts` and
  `payment.factory` — the provider adapters and the active-provider
  selector,
* the coupon service — `validateCoupon`, `consumeCoupon`.

Modelling conventions:

* JavaScript numbers used for money are modelled as exact rationals `ℚ`.
  Arithmetic on them is written with kernel-computable wrappers
  (`jqAdd`, `jqMul`, ... built on `mkRat`) that are proved equal to the
  Mathlib field operations, so concrete runs can be checked by `decide`.
* Timestamps (`Date.now()`, `createdAt`, coupon validity dates) are `ℤ`
  milliseconds, passed explicitly where the source reads the clock.
* The relational store is an explicit `DB` record of rows; prisma
  `findUnique`/`findFirst`/`findMany`/`update`/`create` calls become
  `List.find?`/`List.filter`/`List.map`/append on it.  A prisma
  `$transaction` that can abort on a unique-constraint violation is an
  `Except` value: `.error` means the transaction rolled back and the state
  is unchanged.
* The external gateway call (`provider.createOrder`) is a function
  parameter `gw`; the HMAC-SHA256 primitive is a function parameter
  `hmac`, applied exactly to the key and message the source builds.
* JavaScript `a || b` chains over possibly-missing strings are modelled by
  `jsOrStr` on `Option String` (`none` = `undefined`, `some ""` is falsy).
-/

/-! ## Exact JavaScript-number arithmetic (kernel-computable wrappers) -/

/-- Addition on `ℚ` via `mkRat`, so that closed terms reduce in the kernel
(`Rat.add` itself is `@[irreducible]`). -/
def jqAdd (a b : ℚ) : ℚ := mkRat (a.num * b.den + b.num * a.den) (a.den * b.den)

/-- Subtraction on `ℚ` via `mkRat`. -/
def jqSub (a b : ℚ) : ℚ := mkRat (a.num * b.den - b.num * a.den) (a.den * b.den)

/-- Multiplication on `ℚ` via `mkRat`. -/
def jqMul (a b : ℚ) : ℚ := mkRat (a.num * b.num) (a.den * b.den)

/-- Division by 100 on `ℚ` via `mkRat` (the only division the coupon and
rounding code performs). -/
def jqDiv100 (a : ℚ) : ℚ := mkRat a.num (a.den * 100)

/-- `Math.min` on two numbers: returns one of its arguments. -/
def jsMin (a b : ℚ) : ℚ := if a ≤ b then a else b

/-- `Math.floor` of a rational, as an integer. -/
def jsFloorQ (a : ℚ) : ℤ := a.num.fdiv a.den

/-- `Math.round` semantics of JavaScript on exact rationals: round half
toward positive infinity, i.e. `⌊x + 1/2⌋`. -/
def jsRound (x : ℚ) : ℤ := jsFloorQ (jqAdd x (mkRat 1 2))

/-- `Math.round(x * 100) / 100` — round to 2 decimal places, as the coupon
service does for `discountAmount` and `finalAmount`. -/
def jsRound2 (x : ℚ) : ℚ := mkRat (jsRound (jqMul x 100)) 100

theorem jqAdd_eq (a b : ℚ) : jqAdd a b = a + b := by
  rw [jqAdd, Rat.mkRat_eq_div]
  push_cast
  conv_rhs => rw [← Rat.num_div_den a, ← Rat.num_div_den b]
  rw [div_add_div _ _ (Nat.cast_ne_zero.mpr a.den_nz) (Nat.cast_ne_zero.mpr b.den_nz)]
  ring_nf

theorem jqSub_eq (a b : ℚ) : jqSub a b = a - b := by
  rw [jqSub, Rat.mkRat_eq_div]
  push_cast
  conv_rhs => rw [← Rat.num_div_den a, ← Rat.num_div_den b]
  rw [div_sub_div _ _ (Nat.cast_ne_zero.mpr a.den_nz) (Nat.cast_ne_zero.mpr b.den_nz)]
  ring_nf

theorem jqMul_eq (a b : ℚ) : jqMul a b = a * b := by
  rw [jqMul, Rat.mkRat_eq_div]
  push_cast
  conv_rhs => rw [← Rat.num_div_den a, ← Rat.num_div_den b]
  rw [div_mul_div_comm]

theorem jqDiv100_eq (a : ℚ) : jqDiv100 a = a / 100 := by
  rw [jqDiv100, Rat.mkRat_eq_div]
  push_cast
  conv_rhs => rw [← Rat.num_div_den a]
  rw [div_div]

theorem jsMin_eq (a b : ℚ) : jsMin a b = min a b := by
  rw [jsMin, min_def]

theorem jsFloorQ_eq (a : ℚ) : jsFloorQ a = Int.floor a := by
  rw [Rat.floor_def, jsFloorQ, Int.fdiv_eq_ediv _ (by positivity)]

theorem jsRound_eq (x : ℚ) : jsRound x = Int.floor (x + 1/2) := by
  rw [jsRound, jsFloorQ_eq, jqAdd_eq]
  norm_num

theorem jsRound2_eq (x : ℚ) : jsRound2 x = ((Int.floor (x * 100 + 1/2) : ℚ)) / 100 := by
  rw [jsRound2, Rat.mkRat_eq_div, jsRound_eq, jqMul_eq]
  norm_num

/-- Rounding to 2 decimals is monotone. -/
theorem jsRound2_mono {x y : ℚ} (h : x ≤ y) : jsRound2 x ≤ jsRound2 y := by
  rw [jsRound2_eq, jsRound2_eq]
  have : Int.floor (x * 100 + 1/2) ≤ Int.floor (y * 100 + 1/2) := by
    apply Int.floor_le_floor
    nlinarith
  have hq : ((Int.floor (x * 100 + 1/2) : ℚ)) ≤ ((Int.floor (y * 100 + 1/2) : ℚ)) := by
    exact_mod_cast this
  linarith

/-- Rounding to 2 decimals fixes any whole number of hundredths. -/
theorem jsRound2_of_hundredths (k : ℤ) : jsRound2 ((k : ℚ) / 100) = (k : ℚ) / 100 := by
  rw [jsRound2_eq]
  have h100 : ((k : ℚ) / 100) * 100 = (k : ℚ) := by ring
  rw [h100]
  have : Int.floor ((k : ℚ) + 1/2) = k := by
    rw [Int.floor_int_add]
    norm_num
  rw [this]

/-! ## JavaScript string / option helpers -/

/-- ASCII fragment of `String.prototype.toUpperCase`, written over the
character list so that closed terms reduce in the kernel. -/
def asciiUpperChar (c : Char) : Char :=
  if 97 ≤ c.toNat ∧ c.toNat ≤ 122 then Char.ofNat (c.toNat - 32) else c

/-- Whitespace test used by `jsTrim`. -/
def isJsSpace (c : Char) : Bool := c == ' ' || c == '\t' || c == '\n' || c == '\r'

/-- `String.prototype.trim` (common whitespace), kernel-computable. -/
def jsTrim (s : String) : String :=
  String.mk (((s.data.dropWhile isJsSpace).reverse.dropWhile isJsSpace).reverse)

/-- `String.prototype.toUpperCase` (ASCII fragment), kernel-computable. -/
def jsUpper (s : String) : String := String.mk (s.data.map asciiUpperChar)

/-- JavaScript `a || b` on possibly-absent strings: `undefined` (`none`)
and the empty string are falsy and fall through to `b`; any other string
is returned as is. -/
def jsOrStr (a b : Option String) : Option String :=
  match a with
  | some s => if s = "" then b else some s
  | none => b

/-- JavaScript falsiness of a possibly-absent string (`!x`). -/
def jsFalsy (x : Option String) : Bool :=
  match x with
  | some s => s == ""
  | none => true

/-- Template-literal stringification: `undefined` prints as `"undefined"`. -/
def jsToStr (x : Option String) : String :=
  match x with
  | some s => s
  | none => "undefined"

/-! ## Coupon engine data model

Translated from the Prisma `Coupon` / `CouponUsage` models as used by the
coupon service (`validateCoupon`, `consumeCoupon`). -/

/-- Prisma enum `DiscountType`. -/
inductive DiscountType
  | PERCENTAGE
  | FIXED
deriving DecidableEq, Repr

/-- A `Coupon` row, with the fields the coupon service reads.
`validFrom`/`validTill` are millisecond timestamps; `validTill`,
`totalUsageLimit`, `minOrderAmount` and `maxDiscountAmount` are nullable. -/
structure Coupon where
  id : Nat
  code : String
  isActive : Bool
  validFrom : ℤ
  validTill : Option ℤ
  totalUsageLimit : Option Nat
  usedCount : Nat
  perUserLimit : Nat
  minOrderAmount : Option ℚ
  discountType : DiscountType
  discountValue : ℚ
  maxDiscountAmount : Option ℚ
deriving DecidableEq, Repr

/-- A `CouponUsage` row (`orderId` carries a unique constraint). -/
structure CouponUsage where
  couponId : Nat
  userId : Nat
  orderId : Nat
deriving DecidableEq, Repr

/-- The slice of the database the coupon service touches. -/
structure CouponDB where
  coupons : List Coupon
  usages : List CouponUsage
deriving DecidableEq, Repr

/-- The `CouponValidationResult` interface of the coupon service. -/
structure CouponValidationResult where
  valid : Bool
  reason : Option String := none
  message : Option String := none
  couponCode : Option String := none
  discountType : Option DiscountType := none
  discountValue : Option ℚ := none
  discountAmount : Option ℚ := none
  finalAmount : Option ℚ := none
deriving DecidableEq, Repr

/-- The `VALIDATION_ERRORS` message table of the coupon service. -/
def VALIDATION_ERRORS_DISABLED : String := "Coupon system is currently disabled"
def VALIDATION_ERRORS_NOT_FOUND : String := "Invalid coupon code"
def VALIDATION_ERRORS_EXPIRED : String := "This coupon has expired"
def VALIDATION_ERRORS_NOT_STARTED : String := "This coupon is not yet active"
def VALIDATION_ERRORS_LIMIT_EXCEEDED : String := "This coupon has reached its usage limit"
def VALIDATION_ERRORS_USER_LIMIT_EXCEEDED : String := "You have already used this coupon"
def VALIDATION_ERRORS_MIN_ORDER_NOT_MET (m : ℚ) : String :=
  "Minimum order amount of ₹" ++ toString m ++ " required"
def VALIDATION_ERRORS_INACTIVE : String := "This coupon is no longer active"

/-- The inline expiry test of `validateCoupon`:
`coupon.validTill && coupon.validTill < now`. -/
def couponExpired (now : ℤ) (c : Coupon) : Bool :=
  match c.validTill with
  | some till => decide (till < now)
  | none => false

/-- The inline global-usage-cap test of `validateCoupon`:
`coupon.totalUsageLimit !== null && coupon.usedCount >= coupon.totalUsageLimit`. -/
def couponLimitReached (c : Coupon) : Bool :=
  match c.totalUsageLimit with
  | some limit => decide (limit ≤ c.usedCount)
  | none => false

/-- The inline minimum-order test of `validateCoupon`:
`coupon.minOrderAmount !== null && orderAmount < coupon.minOrderAmount`. -/
def couponMinNotMet (orderAmount : ℚ) (c : Coupon) : Bool :=
  match c.minOrderAmount with
  | some minAmt => decide (orderAmount < minAmt)
  | none => false

/-- `validateCoupon(code, userId, courseId, orderAmount)` from the coupon
service, checked step by step against the source.

Extra explicit parameters replace ambient effects of the source:
`enabled` is the `COUPON_SYSTEM_ENABLED` feature flag, `now` is
`new Date()`, and `findErr` / `countErr` are oracles for the two prisma
reads (`coupon.findFirst`, `couponUsage.count`) throwing; the source wraps
both in `try/catch` and maps any throw to the `"ERROR"` result.

The returned `CouponDB` is the state after the call; the source performs
no writes, so the function hands its input store back unchanged. -/
def validateCoupon (enabled : Bool) (now : ℤ) (findErr countErr : Bool)
    (code : String) (userId : Nat) (_courseId : Nat) (orderAmount : ℚ)
    (db : CouponDB) : CouponValidationResult × CouponDB :=
  if !enabled then
    ({ valid := false, reason := some "DISABLED",
       message := some VALIDATION_ERRORS_DISABLED }, db)
  else
    let normalizedCode := jsUpper (jsTrim code)
    if findErr then
      ({ valid := false, reason := some "ERROR",
         message := some "Failed to validate coupon" }, db)
    else
      match db.coupons.find? (fun c => c.code == normalizedCode) with
      | none =>
          ({ valid := false, reason := some "NOT_FOUND",
             message := some VALIDATION_ERRORS_NOT_FOUND }, db)
      | some coupon =>
        if !coupon.isActive then
          ({ valid := false, reason := some "INACTIVE",
             message := some VALIDATION_ERRORS_INACTIVE }, db)
        else if now < coupon.validFrom then
          ({ valid := false, reason := some "NOT_STARTED",
             message := some VALIDATION_ERRORS_NOT_STARTED }, db)
        else if couponExpired now coupon then
          ({ valid := false, reason := some "EXPIRED",
             message := some VALIDATION_ERRORS_EXPIRED }, db)
        else if couponLimitReached coupon then
          ({ valid := false, reason := some "LIMIT_EXCEEDED",
             message := some VALIDATION_ERRORS_LIMIT_EXCEEDED }, db)
        else if countErr then
          ({ valid := false, reason := some "ERROR",
             message := some "Failed to validate coupon" }, db)
        else
          let userUsageCount :=
            (db.usages.filter (fun u => u.couponId == coupon.id && u.userId == userId)).length
          if coupon.perUserLimit ≤ userUsageCount then
            ({ valid := false, reason := some "USER_LIMIT_EXCEEDED",
               message := some VALIDATION_ERRORS_USER_LIMIT_EXCEEDED }, db)
          else if couponMinNotMet orderAmount coupon then
            ({ valid := false, reason := some "MIN_ORDER_NOT_MET",
               message := some (VALIDATION_ERRORS_MIN_ORDER_NOT_MET (coupon.minOrderAmount.getD 0)) }, db)
          else
            let rawDiscount :=
              match coupon.discountType with
              | .PERCENTAGE =>
                let d := jqDiv100 (jqMul orderAmount coupon.discountValue)
                match coupon.maxDiscountAmount with
                | some m => jsMin d m
                | none => d
              | .FIXED => coupon.discountValue
            let clamped := jsMin rawDiscount orderAmount
            let discountAmount := jsRound2 clamped
            let finalAmount := jsRound2 (jqSub orderAmount discountAmount)
            ({ valid := true,
               couponCode := some normalizedCode,
               discountType := some coupon.discountType,
               discountValue := some coupon.discountValue,
               discountAmount := some discountAmount,
               finalAmount := some finalAmount,
               message := some "Coupon applied successfully" }, db)

/-- `consumeCoupon(couponCode, userId, orderId)` from the coupon service.

The prisma `$transaction` body either returns early (coupon missing, or a
`CouponUsage` row for this `orderId` already exists — the idempotency
guard) leaving the store untouched, or increments the coupon's
`usedCount` and inserts the usage row.  The boolean result is the
source's return value (`true` unless the transaction threw; the
deterministic model has no infrastructure failures). -/
def consumeCoupon (enabled : Bool) (couponCode : String) (userId orderId : Nat)
    (db : CouponDB) : Bool × CouponDB :=
  if !enabled then
    (false, db)
  else
    let normalizedCode := jsUpper (jsTrim couponCode)
    match db.coupons.find? (fun c => c.code == normalizedCode) with
    | none => (true, db)
    | some coupon =>
      match db.usages.find? (fun u => u.orderId == orderId) with
      | some _ => (true, db)
      | none =>
        (true,
         { coupons := db.coupons.map (fun c =>
             if c.id == coupon.id then { c with usedCount := c.usedCount + 1 } else c),
           usages := db.usages ++ [{ couponId := coupon.id, userId := userId, orderId := orderId }] })

/-! ## Payment providers and the provider factory

Translated from `payment.types.ts`, `razorpay.provider.ts`,
`phonepe.provider.ts`, `cashfree.provider.ts` and `payment.factory.ts`. -/

/-- Prisma enum `PaymentProvider`. -/
inductive PaymentProvider
  | RAZORPAY
  | PHONEPE
  | CASHFREE
deriving DecidableEq, Repr

/-- The error taxonomy of `api_error.utils`: `ValidationError`,
`NotFoundError`, `InternalError`, `NotImplementedError`. -/
inductive AppError
  | validation (msg : String)
  | notFound (msg : String)
  | internal (msg : String)
  | notImplemented (msg : String)
deriving DecidableEq, Repr

/-- `CreateOrderParams` of `payment.types.ts`. -/
structure CreateOrderParams where
  amount : ℚ
  currency : String
  orderId : Nat
  courseId : Nat
  courseTitle : String
  userEmail : String
  userName : String
deriving DecidableEq, Repr

/-- `CreateOrderResult` of `payment.types.ts`. -/
structure CreateOrderResult where
  gatewayOrderId : String
  amount : ℚ
  currency : String
  gatewayKeyId : String
  provider : PaymentProvider
deriving DecidableEq, Repr

/-- `VerifyPaymentParams` of `payment.types.ts`. -/
structure VerifyPaymentParams where
  gatewayOrderId : String
  gatewayPaymentId : String
  gatewaySignature : String
deriving DecidableEq, Repr

/-- `VerifyPaymentResult` of `payment.types.ts`. -/
structure VerifyPaymentResult where
  isValid : Bool
  paymentId : String
  signature : String
deriving DecidableEq, Repr

/-- Which string-comparison primitive a provider uses to compare the
expected HMAC digest with the supplied signature.  `plainStringEq` is
JavaScript `===`; `timingSafeEq` would be `crypto.timingSafeEqual`. -/
inductive CompareMethod
  | plainStringEq
  | timingSafeEq
deriving DecidableEq, Repr

/-- The comparison primitive `RazorpayProvider.verifyPayment` actually
uses: `const isValid = expectedSignature === params.gatewaySignature;`
(razorpay.provider.ts, line 201) — ordinary string equality, not a
constant-time comparison. -/
def razorpaySignatureComparison : CompareMethod := CompareMethod.plainStringEq

/-- `RazorpayProvider.verifyPayment`.  `hmac key msg` stands for
`crypto.createHmac("sha256", key).update(msg).digest("hex")`; the source
applies it to the secret key and to `gatewayOrderId + "|" +
gatewayPaymentId`, compares with `===`, and returns a normal result
either way (a mismatch is `isValid: false`, not a throw). -/
def razorpayVerifyPayment (hmac : String → String → String) (keySecret : String)
    (params : VerifyPaymentParams) : VerifyPaymentResult :=
  let body := params.gatewayOrderId ++ "|" ++ params.gatewayPaymentId
  let expectedSignature := hmac keySecret body
  { isValid := expectedSignature == params.gatewaySignature,
    paymentId := params.gatewayPaymentId,
    signature := params.gatewaySignature }

/-- `verifyPayment` dispatched on a provider instance: Razorpay verifies
and never throws; the PhonePe and Cashfree placeholders throw
`NotImplementedError` on every call. -/
def providerVerifyPayment (hmac : String → String → String) (keySecret : String) :
    PaymentProvider → VerifyPaymentParams → Except AppError VerifyPaymentResult
  | .RAZORPAY, params => .ok (razorpayVerifyPayment hmac keySecret params)
  | .PHONEPE, _ => .error (.notImplemented
      ("PhonePe payment verification is not implemented yet. " ++
       "Please select Razorpay in admin settings or contact support."))
  | .CASHFREE, _ => .error (.notImplemented
      ("Cashfree payment verification is not implemented yet. " ++
       "Please select Razorpay in admin settings or contact support."))

/-- `createOrder` dispatched on a provider instance.  The Razorpay
adapter's behaviour (its input validation, the SDK call and its
failure modes) is abstracted as the function `gw`; the PhonePe and
Cashfree placeholders throw `NotImplementedError` before any network
activity. -/
def providerCreateOrder (gw : CreateOrderParams → Except AppError CreateOrderResult) :
    PaymentProvider → CreateOrderParams → Except AppError CreateOrderResult
  | .RAZORPAY, params => gw params
  | .PHONEPE, _ => .error (.notImplemented
      ("PhonePe payment gateway is not implemented yet. " ++
       "Please select Razorpay in admin settings or contact support."))
  | .CASHFREE, _ => .error (.notImplemented
      ("Cashfree payment gateway is not implemented yet. " ++
       "Please select Razorpay in admin settings or contact support."))

/-- `getActiveProviderFromDB` of `payment.factory.ts`.  Its prisma read of
the `ACTIVE_PAYMENT_GATEWAY` row is passed in as an `Except` value:
`.ok (some p)` is a row with a non-empty valid value, `.ok none` covers no
row (or an empty value, both falsy in the source's `setting &&
setting.value` test), and `.error` is the `catch` branch for a database
failure.  The last two both fall back to `RAZORPAY`; the function never
throws. -/
def getActiveProviderFromDB (read : Except Unit (Option PaymentProvider)) : PaymentProvider :=
  match read with
  | .ok (some p) => p
  | .ok none => PaymentProvider.RAZORPAY
  | .error _ => PaymentProvider.RAZORPAY

/-- `getPaymentProvider` of `payment.factory.ts`: the active provider's
instance (instances are identified with their tags in this model). -/
def getPaymentProvider (read : Except Unit (Option PaymentProvider)) : PaymentProvider :=
  match getActiveProviderFromDB read with
  | .RAZORPAY => PaymentProvider.RAZORPAY
  | .PHONEPE => PaymentProvider.PHONEPE
  | .CASHFREE => PaymentProvider.CASHFREE

/-- `getPaymentProviderByName` of `payment.factory.ts`: the provider
pinned by explicit name, used during verification. -/
def getPaymentProviderByName : PaymentProvider → PaymentProvider
  | .RAZORPAY => PaymentProvider.RAZORPAY
  | .PHONEPE => PaymentProvider.PHONEPE
  | .CASHFREE => PaymentProvider.CASHFREE

/-! ## Order / enrollment / payment / cart data model

Translated from the Prisma models read and written by
`payment.service.ts` and `payment.controller.ts`. -/

/-- Prisma enum `OrderStatus`. -/
inductive OrderStatus
  | PENDING
  | COMPLETED
  | FAILED
deriving DecidableEq, Repr

/-- Course publication status (only `PUBLISHED` matters to the core). -/
inductive CourseStatus
  | DRAFT
  | PUBLISHED
  | ARCHIVED
deriving DecidableEq, Repr

/-- The slice of a `Course` row the payment service reads. -/
structure Course where
  id : Nat
  title : String
  price : ℚ
  status : CourseStatus
deriving DecidableEq, Repr

/-- An `Order` row.  `gatewayOrderId` is nullable and unique once set;
`createdAt` is a millisecond timestamp. -/
structure Order where
  id : Nat
  userId : Nat
  courseId : Nat
  amount : ℚ
  currency : String
  status : OrderStatus
  provider : PaymentProvider
  gatewayOrderId : Option String
  createdAt : ℤ
deriving DecidableEq, Repr

/-- An `Enrollment` row; unique per `(userId, courseId)`. -/
structure Enrollment where
  id : Nat
  userId : Nat
  courseId : Nat
deriving DecidableEq, Repr

/-- A `Payment` row as created by the verification transaction. -/
structure Payment where
  id : Nat
  userId : Nat
  courseId : Nat
  amount : ℚ
  provider : PaymentProvider
  gatewayPaymentId : String
  gatewaySignature : String
  orderId : Nat
  enrollmentId : Nat
deriving DecidableEq, Repr

/-- A `Cart` row; one per user. -/
structure Cart where
  id : Nat
  userId : Nat
deriving DecidableEq, Repr

/-- A `CartItem` row. -/
structure CartItem where
  cartId : Nat
  courseId : Nat
deriving DecidableEq, Repr

/-- The slice of the database the payment service touches.
`activeGatewaySetting` is the `AppSettings` row with key
`ACTIVE_PAYMENT_GATEWAY` (`none` = absent).  The `next…Id` counters model
the autoincrement primary keys. -/
structure DB where
  courses : List Course
  orders : List Order
  enrollments : List Enrollment
  payments : List Payment
  carts : List Cart
  cartItems : List CartItem
  activeGatewaySetting : Option PaymentProvider
  nextOrderId : Nat
  nextEnrollmentId : Nat
  nextPaymentId : Nat
deriving DecidableEq, Repr

/-- The outcome of one service operation: the returned value or thrown
error, the database afterwards, the `createOrder` calls issued to a
provider instance, and the provider instance used for `verifyPayment`
dispatch (if any). -/
structure OpResult (α : Type) where
  res : Except AppError α
  db : DB
  gatewayCalls : List CreateOrderParams
  verifyProvider : Option PaymentProvider
deriving Repr

/-- `prisma.course.findUnique({ where: { id } })`. -/
def findCourse (db : DB) (courseId : Nat) : Option Course :=
  db.courses.find? (fun c => c.id == courseId)

/-- `prisma.enrollment.findUnique({ where: { userId_courseId } })`. -/
def enrollmentFor (db : DB) (userId courseId : Nat) : Option Enrollment :=
  db.enrollments.find? (fun e => e.userId == userId && e.courseId == courseId)

/-- `prisma.order.update({ where: { id }, data: { status } })`. -/
def setOrderStatus (db : DB) (orderId : Nat) (st : OrderStatus) : DB :=
  { db with orders := db.orders.map (fun o =>
      if o.id == orderId then { o with status := st } else o) }

/-- `prisma.order.updateMany({ where: { id: { in: ids } }, data: { status:
"FAILED" } })`. -/
def setOrdersFailed (db : DB) (ids : List Nat) : DB :=
  { db with orders := db.orders.map (fun o =>
      if ids.contains o.id then { o with status := OrderStatus.FAILED } else o) }

/-- `prisma.order.update({ where: { id }, data: { gatewayOrderId } })`. -/
def setGatewayOrderId (db : DB) (orderId : Nat) (g : String) : DB :=
  { db with orders := db.orders.map (fun o =>
      if o.id == orderId then { o with gatewayOrderId := some g } else o) }

/-- `prisma.order.findFirst({ where: { userId, courseId, status: "PENDING" },
orderBy: { createdAt: "desc" } })` — the newest matching pending order. -/
def newestPendingOrder (db : DB) (userId courseId : Nat) : Option Order :=
  (db.orders.filter (fun o =>
      o.userId == userId && o.courseId == courseId && o.status == OrderStatus.PENDING)).foldl
    (fun acc o =>
      match acc with
      | none => some o
      | some b => if b.createdAt < o.createdAt then some o else some b)
    none

/-! ## Order lifecycle operations (`payment.service.ts`,
`payment.controller.ts`) -/

/-- The data object returned by `initiateBuyNowOrder`. -/
structure BuyNowData where
  gatewayOrderId : String
  amount : ℚ
  currency : String
  key : String
  provider : PaymentProvider
  internalOrderId : Nat
  courseTitle : String
  userEmail : String
  userName : String
deriving DecidableEq, Repr

/-- The "wait" message thrown by the anti-duplicate check of
`initiateBuyNowOrder`. -/
def buyNowWaitMessage (secondsAgo minutesLeft : ℤ) : String :=
  "Payment started " ++ toString secondsAgo ++ "s ago. Wait " ++ toString minutesLeft ++
    " min to retry or complete current payment."

/-- `Math.floor(a / b)` on integers. -/
def jsFloorDiv (a b : ℤ) : ℤ := a.fdiv b

/-- `Math.ceil(a / b)` on integers. -/
def jsCeilDiv (a b : ℤ) : ℤ := -((-a).fdiv b)

/-- Steps 3-7 of `initiateBuyNowOrder` (reached once all validations and
the anti-duplicate window check have passed): resolve the active
provider, persist the PENDING order, issue the gateway charge, store the
returned gateway order id — or mark the fresh order FAILED and re-raise
when the gateway call fails. -/
def buyNowCreate (now : ℤ) (userId courseId : Nat) (userName userEmail : String)
    (gw : CreateOrderParams → Except AppError CreateOrderResult)
    (db : DB) (course : Course) : OpResult BuyNowData :=
  let providerName := getPaymentProvider (.ok db.activeGatewaySetting)
  let order : Order :=
    { id := db.nextOrderId, userId := userId, courseId := courseId,
      amount := course.price, currency := "INR", status := OrderStatus.PENDING,
      provider := providerName, gatewayOrderId := none, createdAt := now }
  let db1 : DB :=
    { db with
      orders := db.orders ++ [order],
      nextOrderId := db.nextOrderId + 1 }
  let params : CreateOrderParams :=
    { amount := course.price, currency := "INR", orderId := order.id,
      courseId := course.id, courseTitle := course.title,
      userEmail := userEmail, userName := userName }
  match providerCreateOrder gw providerName params with
  | .error e =>
    ⟨.error e, setOrderStatus db1 order.id OrderStatus.FAILED, [params], none⟩
  | .ok gatewayResult =>
    ⟨.ok { gatewayOrderId := gatewayResult.gatewayOrderId,
           amount := gatewayResult.amount,
           currency := gatewayResult.currency,
           key := gatewayResult.gatewayKeyId,
           provider := providerName,
           internalOrderId := order.id,
           courseTitle := course.title,
           userEmail := userEmail, userName := userName },
      setGatewayOrderId db1 order.id gatewayResult.gatewayOrderId, [params], none⟩

/-- `initiateBuyNowOrder(userId, courseId, userDetails)` of
`payment.service.ts`.  `now` is `Date.now()`; `gw` abstracts the Razorpay
adapter's `createOrder` (see `providerCreateOrder`). -/
def initiateBuyNowOrder (now : ℤ) (userId courseId : Nat)
    (userName userEmail : String)
    (gw : CreateOrderParams → Except AppError CreateOrderResult)
    (db : DB) : OpResult BuyNowData :=
  match findCourse db courseId with
  | none => ⟨.error (.notFound "Course not found."), db, [], none⟩
  | some course =>
    if course.status ≠ CourseStatus.PUBLISHED then
      ⟨.error (.validation "This course is not available for purchase."), db, [], none⟩
    else if course.price = 0 then
      ⟨.error (.validation "This is a free course. Please enroll directly without payment."),
        db, [], none⟩
    else if (enrollmentFor db userId courseId).isSome then
      ⟨.error (.validation "You are already enrolled in this course."), db, [], none⟩
    else
      match newestPendingOrder db userId courseId with
      | some pendingOrder =>
        if now - pendingOrder.createdAt < 1 * 60 * 1000 then
          ⟨.error (.validation
              (buyNowWaitMessage (jsFloorDiv (now - pendingOrder.createdAt) 1000)
                (jsCeilDiv (1 * 60 * 1000 - (now - pendingOrder.createdAt)) 60000))),
            db, [], none⟩
        else buyNowCreate now userId courseId userName userEmail gw db course
      | none => buyNowCreate now userId courseId userName userEmail gw db course

/-- `cancelOrder` of `payment.controller.ts`: marks the caller's PENDING
order FAILED; reports success with no state change when no such PENDING
order of this user exists (already processed, already failed, or absent). -/
def cancelOrder (userId orderId : Nat) (db : DB) : OpResult String :=
  match db.orders.find? (fun o =>
      o.id == orderId && o.userId == userId && o.status == OrderStatus.PENDING) with
  | none => ⟨.ok "Order already processed", db, [], none⟩
  | some _ => ⟨.ok "Order cancelled", setOrderStatus db orderId OrderStatus.FAILED, [], none⟩

/-- The generic `paymentData: Record<string, any>` bag passed to the
verification endpoints, restricted to the fields the source reads.
Absent fields are `none`; `orderIds` defaults to `[]` as in
`paymentData.orderIds || []`. -/
structure PaymentData where
  razorpay_order_id : Option String := none
  transactionId : Option String := none
  orderId : Option String := none
  order_id : Option String := none
  razorpay_payment_id : Option String := none
  paymentId : Option String := none
  razorpay_signature : Option String := none
  signature : Option String := none
  checksum : Option String := none
  orderIds : List Nat := []
deriving Repr

/-- The gateway-order-id extraction chain shared by `verifyPaymentSignature`
and `verifyCartPayment`:
`razorpay_order_id || transactionId || orderId || order_id`. -/
def extractGatewayOrderId (pd : PaymentData) : Option String :=
  jsOrStr pd.razorpay_order_id (jsOrStr pd.transactionId (jsOrStr pd.orderId pd.order_id))

/-- The reason a completion transaction aborted: `P2002` is prisma's
unique-constraint violation code. -/
inductive TxErr
  | P2002
deriving DecidableEq, Repr

/-- The `$transaction` body of `verifyPaymentSignature` for a valid
signature: mark the order COMPLETED, create the enrollment (this is where
a duplicate `(userId, courseId)` raises `P2002` and rolls the whole
transaction back), create the payment receipt, and delete the course from
the buyer's cart if present.  An `.error` result models the rollback: the
caller keeps the pre-transaction state. -/
def completeOrderTx (db : DB) (order : Order) (vr : VerifyPaymentResult) : Except TxErr DB :=
  if (enrollmentFor db order.userId order.courseId).isSome then
    .error TxErr.P2002
  else
    let db1 := setOrderStatus db order.id OrderStatus.COMPLETED
    let enrollment : Enrollment :=
      { id := db.nextEnrollmentId, userId := order.userId, courseId := order.courseId }
    let payment : Payment :=
      { id := db.nextPaymentId, userId := order.userId, courseId := order.courseId,
        amount := order.amount, provider := order.provider,
        gatewayPaymentId := vr.paymentId, gatewaySignature := vr.signature,
        orderId := order.id, enrollmentId := enrollment.id }
    let db2 := { db1 with
      enrollments := db1.enrollments ++ [enrollment],
      payments := db1.payments ++ [payment],
      nextEnrollmentId := db.nextEnrollmentId + 1,
      nextPaymentId := db.nextPaymentId + 1 }
    match db2.carts.find? (fun c => c.userId == order.userId) with
    | none => .ok db2
    | some userCart =>
      .ok { db2 with cartItems := db2.cartItems.filter (fun it =>
              !(it.cartId == userCart.id && it.courseId == order.courseId)) }

/-- The `VerifyPaymentParams` bag `verifyPaymentSignature` hands to the
pinned provider (the source's field-priority chains at its STEP 4). -/
def singleVerifyParams (pd : PaymentData) : VerifyPaymentParams :=
  { gatewayOrderId :=
      jsToStr (jsOrStr pd.razorpay_order_id (jsOrStr pd.orderId (extractGatewayOrderId pd))),
    gatewayPaymentId :=
      jsToStr (jsOrStr pd.razorpay_payment_id (jsOrStr pd.transactionId pd.paymentId)),
    gatewaySignature :=
      jsToStr (jsOrStr pd.razorpay_signature (jsOrStr pd.signature pd.checksum)) }

/-- `verifyPaymentSignature(userId, paymentData)` of `payment.service.ts`.
`hmac`/`keySecret` feed the pinned provider's `verifyPayment` (see
`providerVerifyPayment`); the provider instance used is recorded in
`OpResult.verifyProvider`. -/
def verifyPaymentSignature (hmac : String → String → String) (keySecret : String)
    (userId : Nat) (pd : PaymentData) (db : DB) : OpResult String :=
  let gatewayOrderId := extractGatewayOrderId pd
  if jsFalsy gatewayOrderId then
    ⟨.error (.validation "Order ID not found in payment data"), db, [], none⟩
  else
    match db.orders.find? (fun o => o.gatewayOrderId == some (jsToStr gatewayOrderId)) with
    | none => ⟨.error (.notFound "Order record not found."), db, [], none⟩
    | some order =>
      if order.status = OrderStatus.COMPLETED then
        ⟨.ok "Payment already processed.", db, [], none⟩
      else if order.status = OrderStatus.FAILED then
        ⟨.error (.validation "This order has failed. Please create a new order."), db, [], none⟩
      else
        let paymentGateway := getPaymentProviderByName order.provider
        match providerVerifyPayment hmac keySecret paymentGateway (singleVerifyParams pd) with
        | .error e => ⟨.error e, db, [], some paymentGateway⟩
        | .ok verifyResult =>
          if !verifyResult.isValid then
            ⟨.error (.validation "Invalid payment signature. Payment verification failed."),
              setOrderStatus db order.id OrderStatus.FAILED, [], some paymentGateway⟩
          else
            match completeOrderTx db order verifyResult with
            | .ok db2 =>
              ⟨.ok "Payment verified & Course enrolled.", db2, [], some paymentGateway⟩
            | .error TxErr.P2002 =>
              ⟨.ok "Already enrolled.", db, [], some paymentGateway⟩

/-- The data object returned by `initiateCartCheckout`. -/
structure CartCheckoutData where
  gatewayOrderId : String
  amount : ℚ
  currency : String
  key : String
  provider : PaymentProvider
  internalOrderIds : List Nat
  courseCount : Nat
  courseTitles : String
  userEmail : String
  userName : String
deriving DecidableEq, Repr

/-- The "wait" message thrown by the pending-order check of
`initiateCartCheckout`. -/
def cartWaitMessage (secondsAgo : ℤ) : String :=
  "Payment started " ++ toString secondsAgo ++ "s ago. Wait 1 min to retry."

/-- `courses.map(c => c.title).join(", ")`. -/
def joinTitles (titles : List String) : String := String.intercalate ", " titles

/-- The fresh PENDING order rows `initiateCartCheckout` creates, one per
cart course, primary keys allocated by the store in sequence. -/
def cartNewOrders (now : ℤ) (userId : Nat) (providerName : PaymentProvider) :
    Nat → List Course → List Order
  | _, [] => []
  | nextOrderId, c :: cs =>
    ({ id := nextOrderId, userId := userId, courseId := c.id,
       amount := c.price, currency := "INR", status := OrderStatus.PENDING,
       provider := providerName, gatewayOrderId := none,
       createdAt := now } : Order) :: cartNewOrders now userId providerName (nextOrderId + 1) cs

/-- Steps 4-7 of `initiateCartCheckout` (reached once all cart validations
and the pending-order window check have passed): compute the combined
total, create one PENDING order per course, issue a single gateway charge
for the total, and store the returned gateway order id on the first order
only — or mark all fresh orders FAILED and re-raise when the gateway call
fails. -/
def cartCheckoutCreate (now : ℤ) (userId : Nat) (userName userEmail : String)
    (gw : CreateOrderParams → Except AppError CreateOrderResult)
    (db : DB) (courses : List Course) : OpResult CartCheckoutData :=
  let totalAmount := courses.foldl (fun sum c => jqAdd sum c.price) 0
  let courseTitles := joinTitles (courses.map (fun c => c.title))
  let providerName := getPaymentProvider (.ok db.activeGatewaySetting)
  let newOrders := cartNewOrders now userId providerName db.nextOrderId courses
  let db1 : DB :=
    { db with
      orders := db.orders ++ newOrders,
      nextOrderId := db.nextOrderId + courses.length }
  match courses with
  | firstCourse :: _ =>
    -- `orders[0]!` is the first order created above: its id is the previous
    -- value of the id counter and its course is the first cart course.
    let params : CreateOrderParams :=
      { amount := totalAmount, currency := "INR", orderId := db.nextOrderId,
        courseId := firstCourse.id,
        courseTitle := "Cart: " ++ toString courses.length ++ " courses",
        userEmail := userEmail, userName := userName }
    (match providerCreateOrder gw providerName params with
     | .error e =>
       ⟨.error e, setOrdersFailed db1 (newOrders.map (fun o => o.id)), [params], none⟩
     | .ok gatewayResult =>
       ⟨.ok { gatewayOrderId := gatewayResult.gatewayOrderId,
              amount := gatewayResult.amount,
              currency := gatewayResult.currency,
              key := gatewayResult.gatewayKeyId,
              provider := providerName,
              internalOrderIds := newOrders.map (fun o => o.id),
              courseCount := courses.length,
              courseTitles := courseTitles,
              userEmail := userEmail, userName := userName },
         setGatewayOrderId db1 db.nextOrderId gatewayResult.gatewayOrderId,
         [params], none⟩)
  | [] =>
    -- Unreachable when the store is relationally intact: a non-empty item
    -- list joins to a non-empty course list (`orders[0]!` in the source).
    ⟨.error (.internal "Cart items reference no existing course."), db1, [], none⟩

/-- `initiateCartCheckout(userId, userDetails)` of `payment.service.ts`:
validates every cart course in one batch, creates one PENDING order per
course, issues a single gateway charge for the combined total, and stores
the returned gateway order id on the first order only. -/
def initiateCartCheckout (now : ℤ) (userId : Nat) (userName userEmail : String)
    (gw : CreateOrderParams → Except AppError CreateOrderResult)
    (db : DB) : OpResult CartCheckoutData :=
  match db.carts.find? (fun c => c.userId == userId) with
  | none => ⟨.error (.validation "Your cart is empty."), db, [], none⟩
  | some cart =>
    let items := db.cartItems.filter (fun it => it.cartId == cart.id)
    let courses := items.filterMap (fun it => findCourse db it.courseId)
    if items.isEmpty then
      ⟨.error (.validation "Your cart is empty."), db, [], none⟩
    else
      let courseIds := courses.map (fun c => c.id)
      let unpublished := courses.filter (fun c => c.status ≠ CourseStatus.PUBLISHED)
      if !unpublished.isEmpty then
        ⟨.error (.validation ("Some courses are no longer available: " ++
            joinTitles (unpublished.map (fun c => c.title)))), db, [], none⟩
      else
        let freeCourses := courses.filter (fun c => c.price = 0)
        if !freeCourses.isEmpty then
          ⟨.error (.validation ("Please remove free courses and enroll directly: " ++
              joinTitles (freeCourses.map (fun c => c.title)))), db, [], none⟩
        else
          let enrolledCourses := courses.filter (fun c => (enrollmentFor db userId c.id).isSome)
          if !enrolledCourses.isEmpty then
            ⟨.error (.validation ("Already enrolled in: " ++
                joinTitles (enrolledCourses.map (fun c => c.title)) ++
                ". Please remove from cart.")), db, [], none⟩
          else
            let timeoutMs : ℤ := 1 * 60 * 1000
            let cutoffTime := now - timeoutMs
            match db.orders.find? (fun o =>
                o.userId == userId && courseIds.contains o.courseId &&
                o.status == OrderStatus.PENDING && decide (cutoffTime < o.createdAt)) with
            | some pendingOrder =>
              ⟨.error (.validation
                  (cartWaitMessage (jsFloorDiv (now - pendingOrder.createdAt) 1000))),
                db, [], none⟩
            | none => cartCheckoutCreate now userId userName userEmail gw db courses

/-- One iteration step of the `verifyCartPayment` completion transaction:
complete the orders in sequence, creating an enrollment and a payment
per order; a duplicate enrollment raises `P2002` and aborts (rolls back)
the whole transaction. -/
def completeCartOrdersLoop (vr : VerifyPaymentResult) :
    DB → List Order → Except TxErr DB
  | db, [] => .ok db
  | db, order :: rest =>
    if (enrollmentFor db order.userId order.courseId).isSome then
      .error TxErr.P2002
    else
      let db1 := setOrderStatus db order.id OrderStatus.COMPLETED
      let enrollment : Enrollment :=
        { id := db.nextEnrollmentId, userId := order.userId, courseId := order.courseId }
      let payment : Payment :=
        { id := db.nextPaymentId, userId := order.userId, courseId := order.courseId,
          amount := order.amount, provider := order.provider,
          gatewayPaymentId := vr.paymentId, gatewaySignature := vr.signature,
          orderId := order.id, enrollmentId := enrollment.id }
      completeCartOrdersLoop vr
        { db1 with
          enrollments := db1.enrollments ++ [enrollment],
          payments := db1.payments ++ [payment],
          nextEnrollmentId := db.nextEnrollmentId + 1,
          nextPaymentId := db.nextPaymentId + 1 }
        rest

/-- The `$transaction` body of `verifyCartPayment` for a valid signature:
complete every sibling order, then clear the requesting user's cart. -/
def completeCartTx (db : DB) (orders : List Order) (vr : VerifyPaymentResult)
    (userId : Nat) : Except TxErr DB :=
  match completeCartOrdersLoop vr db orders with
  | .error e => .error e
  | .ok db1 =>
    match db1.carts.find? (fun c => c.userId == userId) with
    | none => .ok db1
    | some userCart =>
      .ok { db1 with cartItems := db1.cartItems.filter (fun it =>
              !(it.cartId == userCart.id)) }

/-- The `VerifyPaymentParams` bag `verifyCartPayment` hands to the pinned
provider (its chains omit the `paymentId` and `checksum` fallbacks). -/
def cartVerifyParams (pd : PaymentData) : VerifyPaymentParams :=
  { gatewayOrderId :=
      jsToStr (jsOrStr pd.razorpay_order_id (jsOrStr pd.orderId (extractGatewayOrderId pd))),
    gatewayPaymentId := jsToStr (jsOrStr pd.razorpay_payment_id pd.transactionId),
    gatewaySignature := jsToStr (jsOrStr pd.razorpay_signature pd.signature) }

/-- `verifyCartPayment(userId, paymentData)` of `payment.service.ts`:
locates the sibling orders (by shared gateway order id, falling back to
the client-supplied `orderIds` re-validated as PENDING and owned), then
verifies the signature once and completes all of them in one
transaction. -/
def verifyCartPayment (hmac : String → String → String) (keySecret : String)
    (userId : Nat) (pd : PaymentData) (db : DB) : OpResult String :=
  let gatewayOrderId := extractGatewayOrderId pd
  let orderIds := pd.orderIds
  if jsFalsy gatewayOrderId then
    ⟨.error (.validation "Order ID not found in payment data"), db, [], none⟩
  else
    let found := db.orders.filter (fun o => o.gatewayOrderId == some (jsToStr gatewayOrderId))
    let orders :=
      if found.length = 1 ∧ 1 < orderIds.length then
        db.orders.filter (fun o =>
          orderIds.contains o.id && o.userId == userId && o.status == OrderStatus.PENDING)
      else found
    match orders with
    | [] => ⟨.error (.notFound "Orders not found."), db, [], none⟩
    | firstOrder :: _ =>
      if orders.all (fun o => o.status == OrderStatus.COMPLETED) then
        ⟨.ok "Payment already processed.", db, [], none⟩
      else
        let paymentGateway := getPaymentProviderByName firstOrder.provider
        match providerVerifyPayment hmac keySecret paymentGateway (cartVerifyParams pd) with
        | .error e => ⟨.error e, db, [], some paymentGateway⟩
        | .ok verifyResult =>
          if !verifyResult.isValid then
            ⟨.error (.validation "Invalid payment signature."),
              setOrdersFailed db (orders.map (fun o => o.id)), [], some paymentGateway⟩
          else
            match completeCartTx db orders verifyResult userId with
            | .ok db2 =>
              ⟨.ok ("Enrolled in " ++ toString orders.length ++ " courses!"),
                db2, [], some paymentGateway⟩
            | .error TxErr.P2002 =>
              ⟨.ok "Already enrolled.", db, [], some paymentGateway⟩

/-! ## Claim C9 — consumeCoupon is idempotent per order -/

/-- Claim C9: `consumeCoupon` is idempotent per order.  Consuming the same
`orderId` twice leaves exactly the state of consuming it once; and one
consume call either changes nothing (a `CouponUsage` row keyed by this
`orderId` already exists) or increments the matched coupon's `usedCount`
by exactly 1 and inserts exactly one `CouponUsage` row. -/
theorem consumeCoupon_idempotent_per_order (enabled : Bool) (code : String)
    (userId orderId : Nat) (db : CouponDB) :
    (consumeCoupon enabled code userId orderId
        (consumeCoupon enabled code userId orderId db).2).2
      = (consumeCoupon enabled code userId orderId db).2
    ∧ (∀ c, db.coupons.find? (fun k => k.code == jsUpper (jsTrim code)) = some c →
        ((db.usages.find? (fun x => x.orderId == orderId)).isSome →
          (consumeCoupon enabled code userId orderId db).2 = db)
        ∧ (db.usages.find? (fun x => x.orderId == orderId) = none →
          (consumeCoupon true code userId orderId db).2 =
            { coupons := db.coupons.map (fun k =>
                if k.id == c.id then { k with usedCount := k.usedCount + 1 } else k),
              usages := db.usages ++
                [{ couponId := c.id, userId := userId, orderId := orderId }] })) := by
  constructor
  · cases enabled with
    | false => rfl
    | true =>
      show (consumeCoupon true code userId orderId
        (consumeCoupon true code userId orderId db).2).2
        = (consumeCoupon true code userId orderId db).2
      unfold consumeCoupon
      simp only [Bool.not_true, Bool.false_eq_true, if_false]
      cases hc : db.coupons.find? (fun c => c.code == jsUpper (jsTrim code)) with
      | none => simp [hc]
      | some coupon =>
        cases hu : db.usages.find? (fun u => u.orderId == orderId) with
        | some u => simp [hc, hu]
        | none =>
          simp only [hc, hu]
          have hmap : ((db.coupons.map (fun c =>
              if c.id == coupon.id then { c with usedCount := c.usedCount + 1 } else c)).find?
                (fun c => c.code == jsUpper (jsTrim code)))
              = some (if coupon.id == coupon.id then
                  { coupon with usedCount := coupon.usedCount + 1 } else coupon) := by
            rw [List.find?_map]
            have hpred : ((fun c : Coupon => c.code == jsUpper (jsTrim code)) ∘
                (fun c : Coupon =>
                  if c.id == coupon.id then { c with usedCount := c.usedCount + 1 } else c))
                = (fun c : Coupon => c.code == jsUpper (jsTrim code)) := by
              funext c
              by_cases h : c.id = coupon.id <;> simp [h]
            rw [hpred, hc]
            rfl
          simp only [hmap]
          have happ : (db.usages ++
              [({ couponId := coupon.id, userId := userId, orderId := orderId } : CouponUsage)]).find?
                (fun u => u.orderId == orderId)
              = some ({ couponId := coupon.id, userId := userId, orderId := orderId } : CouponUsage) := by
            rw [List.find?_append, hu]
            simp
          simp [happ]
  · intro c hc
    constructor
    · intro hu
      cases enabled with
      | false => rfl
      | true =>
        unfold consumeCoupon
        simp only [Bool.not_true, Bool.false_eq_true, if_false, hc]
        cases hu2 : db.usages.find? (fun u => u.orderId == orderId) with
        | none => rw [hu2] at hu; simp at hu
        | some u => simp
    · intro hu
      unfold consumeCoupon
      simp only [Bool.not_true, Bool.false_eq_true, if_false, hc, hu]

/-- Concrete coupon store for the C9 witness. -/
def couponC9 : Coupon :=
  { id := 1, code := "SAVE", isActive := true, validFrom := 0, validTill := none,
    totalUsageLimit := none, usedCount := 0, perUserLimit := 1, minOrderAmount := none,
    discountType := DiscountType.FIXED, discountValue := 50, maxDiscountAmount := none }

/-- Concrete coupon store for the C9 witness. -/
def cdbC9 : CouponDB := { coupons := [couponC9], usages := [] }

/-- Witness for C9: consuming order 10 once bumps `usedCount` from 0 to 1
and inserts one usage row; consuming it again changes nothing. -/
theorem consumeCoupon_idempotent_per_order_witness :
    (consumeCoupon true "save" 2 10 (consumeCoupon true "save" 2 10 cdbC9).2).2
      = (consumeCoupon true "save" 2 10 cdbC9).2
    ∧ (consumeCoupon true "save" 2 10 cdbC9).2
      = { coupons := [{ couponC9 with usedCount := 1 }],
          usages := [{ couponId := 1, userId := 2, orderId := 10 }] } := by
  have h := consumeCoupon_idempotent_per_order true "save" 2 10 cdbC9
  refine ⟨h.1, ?_⟩
  have h2 := (h.2 couponC9 (by decide)).2 (by decide)
  rw [h2]
  decide

/-! ## Claim C10 — validateCoupon is total and read-only -/

set_option maxHeartbeats 1000000 in
/-- Claim C10: `validateCoupon` is total and read-only.  For every input it
hands its store back unchanged (it performs no writes, so no `usedCount`
and no `CouponUsage` row changes); every unsuccessful outcome is a
structured result with `reason` and `message` set rather than a thrown
exception; the disabled feature flag yields the `DISABLED` result; and a
failing datastore read is caught and yields the `ERROR` result. -/
theorem validateCoupon_total_readonly (enabled : Bool) (now : ℤ)
    (findErr countErr : Bool) (code : String) (userId courseId : Nat)
    (orderAmount : ℚ) (db : CouponDB) :
    (validateCoupon enabled now findErr countErr code userId courseId orderAmount db).2 = db
    ∧ ((validateCoupon enabled now findErr countErr code userId courseId orderAmount db).1.valid
          = false →
        (validateCoupon enabled now findErr countErr code userId courseId
            orderAmount db).1.reason.isSome
        ∧ (validateCoupon enabled now findErr countErr code userId courseId
            orderAmount db).1.message.isSome)
    ∧ (enabled = false →
        (validateCoupon enabled now findErr countErr code userId courseId orderAmount db).1
          = { valid := false, reason := some "DISABLED",
              message := some VALIDATION_ERRORS_DISABLED })
    ∧ (enabled = true → findErr = true →
        (validateCoupon enabled now findErr countErr code userId courseId orderAmount db).1
          = { valid := false, reason := some "ERROR",
              message := some "Failed to validate coupon" }) := by
  refine ⟨?_, ?_, ?_, ?_⟩
  · simp only [validateCoupon]
    repeat (first | rfl | split)
  · simp only [validateCoupon]
    repeat' split
    all_goals simp
  · intro he
    subst he
    rfl
  · intro he hf
    subst he
    subst hf
    rfl

/-- Concrete coupon store for the C10 witness. -/
def cdbC10 : CouponDB := { coupons := [], usages := [] }

/-- Witness for C10: with the datastore read failing, validation returns
the structured `ERROR` result and leaves the store unchanged. -/
theorem validateCoupon_total_readonly_witness :
    (validateCoupon true 1000 true false "SAVE20" 1 7 499 cdbC10).2 = cdbC10
    ∧ (validateCoupon true 1000 true false "SAVE20" 1 7 499 cdbC10).1
      = { valid := false, reason := some "ERROR",
          message := some "Failed to validate coupon" } := by
  have h := validateCoupon_total_readonly true 1000 true false "SAVE20" 1 7 499 cdbC10
  exact ⟨h.1, h.2.2.2 rfl rfl⟩

/-! ## Claim C4 — the discount computation of validateCoupon -/

/-- The raw (pre-clamp, pre-round) discount of §4.4: `PERCENTAGE` applies
`amount * value / 100` capped by the optional max-discount ceiling;
`FIXED` applies the raw value. -/
def couponRawDiscount (c : Coupon) (orderAmount : ℚ) : ℚ :=
  match c.discountType with
  | .PERCENTAGE =>
    match c.maxDiscountAmount with
    | some m => jsMin (jqDiv100 (jqMul orderAmount c.discountValue)) m
    | none => jqDiv100 (jqMul orderAmount c.discountValue)
  | .FIXED => c.discountValue

/-- A FIXED coupon worth 0.005 for the C4 counterexample. -/
def couponC4cex : Coupon :=
  { id := 2, code := "HALFPAISA", isActive := true, validFrom := 0, validTill := none,
    totalUsageLimit := none, usedCount := 0, perUserLimit := 1, minOrderAmount := none,
    discountType := DiscountType.FIXED, discountValue := mkRat 1 200,
    maxDiscountAmount := none }

/-- Concrete coupon store for the C4 counterexample. -/
def cdbC4cex : CouponDB := { coupons := [couponC4cex], usages := [] }

/-- Counterexample to C4 as frozen: for the sub-paisa order amount 0.005
with a FIXED coupon of value 0.005, the clamp keeps the discount at 0.005
but the subsequent rounding to 2 decimals lifts it to 0.01, so the
returned `discountAmount` exceeds the order amount (and `finalAmount` is
0 rather than their difference being nonnegative before rounding).  The
source computes the same values: `Math.min(0.005, 0.005) = 0.005`,
`Math.round(0.005 * 100) / 100 = 0.01`. -/
theorem validateCoupon_discount_can_exceed_orderAmount :
    (validateCoupon true 0 false false "HALFPAISA" 1 7 (mkRat 1 200) cdbC4cex).1.valid = true
    ∧ (validateCoupon true 0 false false "HALFPAISA" 1 7 (mkRat 1 200) cdbC4cex).1.discountAmount
        = some (mkRat 1 100)
    ∧ ¬((mkRat 1 100 : ℚ) ≤ mkRat 1 200) := by
  refine ⟨by decide, by decide, by decide⟩

/-- Claim C4 (amended): for every coupon passing all validity checks, the
returned `discountAmount` is the raw discount (`amount * value / 100`
capped by the optional max-discount ceiling for `PERCENTAGE`, the raw
value for `FIXED`) clamped to the order amount and rounded to 2 decimals,
`finalAmount` is `orderAmount - discountAmount` rounded to 2 decimals,
and — whenever the order amount is a whole number of hundredths, i.e. any
real currency amount — `discountAmount ≤ orderAmount`.  (Unrestricted,
that bound fails for sub-paisa order amounts: rounding the clamped
discount can lift it just above the order amount, see the
counterexample.)  In particular, for order amount 499 and a 20%
PERCENTAGE coupon capped at 50, the result is discount 50 and final 449
— the witness instantiates exactly that scenario. -/
theorem validateCoupon_discount_formula (now : ℤ)
    (code : String) (userId courseId : Nat)
    (orderAmount : ℚ) (db : CouponDB) (c : Coupon)
    (hfind : db.coupons.find? (fun k => k.code == jsUpper (jsTrim code)) = some c)
    (hactive : c.isActive = true)
    (hstart : ¬ now < c.validFrom)
    (htill : couponExpired now c = false)
    (hlimit : couponLimitReached c = false)
    (huser : (db.usages.filter (fun u => u.couponId == c.id && u.userId == userId)).length
        < c.perUserLimit)
    (hmin : couponMinNotMet orderAmount c = false) :
    (validateCoupon true now false false code userId courseId orderAmount db).1
      = { valid := true,
          couponCode := some (jsUpper (jsTrim code)),
          discountType := some c.discountType,
          discountValue := some c.discountValue,
          discountAmount :=
            some (jsRound2 (jsMin (couponRawDiscount c orderAmount) orderAmount)),
          finalAmount := some (jsRound2 (jqSub orderAmount
            (jsRound2 (jsMin (couponRawDiscount c orderAmount) orderAmount)))),
          message := some "Coupon applied successfully" }
    ∧ ((∃ k : ℤ, orderAmount = (k : ℚ) / 100) →
        jsRound2 (jsMin (couponRawDiscount c orderAmount) orderAmount) ≤ orderAmount) := by
  constructor
  · simp only [validateCoupon, hfind, hactive, htill, hlimit, hmin, couponRawDiscount,
      Bool.not_true, Bool.not_false, Bool.false_eq_true, if_false, if_true, ite_false,
      ite_true]
    rw [if_neg hstart, if_neg (not_le.mpr huser)]
  · rintro ⟨k, hk⟩
    have hle : jsMin (couponRawDiscount c orderAmount) orderAmount ≤ orderAmount := by
      rw [jsMin_eq]
      exact min_le_right _ _
    have hmono := jsRound2_mono hle
    rw [hk, jsRound2_of_hundredths] at hmono
    rw [hk]
    exact hmono

/-- The 20%-capped-at-50 coupon of the C4 scenario. -/
def couponC4 : Coupon :=
  { id := 3, code := "SAVE20", isActive := true, validFrom := 0, validTill := none,
    totalUsageLimit := none, usedCount := 0, perUserLimit := 1, minOrderAmount := none,
    discountType := DiscountType.PERCENTAGE, discountValue := 20,
    maxDiscountAmount := some 50 }

/-- Concrete coupon store for the C4 witness. -/
def cdbC4 : CouponDB := { coupons := [couponC4], usages := [] }

/-- Witness for C4: order amount 499.00 with a 20% PERCENTAGE coupon
capped at 50.00 validates to discount 50.00 (not 99.80) and final amount
449.00, and the discount respects the order amount. -/
theorem validateCoupon_discount_formula_witness :
    (validateCoupon true 1000 false false "SAVE20" 1 7 499 cdbC4).1.discountAmount = some 50
    ∧ (validateCoupon true 1000 false false "SAVE20" 1 7 499 cdbC4).1.finalAmount = some 449
    ∧ jsRound2 (jsMin (couponRawDiscount couponC4 499) 499) ≤ 499 := by
  have h := validateCoupon_discount_formula 1000 "SAVE20" 1 7 499 cdbC4 couponC4
    (by decide) (by decide) (by decide) (by decide) (by decide) (by decide) (by decide)
  refine ⟨?_, ?_, ?_⟩
  · rw [h.1]
    decide
  · rw [h.1]
    decide
  · exact h.2 ⟨49900, by norm_num⟩

/-! ## Claim C3 — the reference provider's signature verification -/

/-- Counterexample to C3 as frozen: the comparison
`razorpay.provider.ts` performs between the expected HMAC digest and the
supplied signature is JavaScript `===` — ordinary string equality — not
a constant-time comparison such as `crypto.timingSafeEqual`. -/
theorem razorpay_comparison_not_constant_time :
    razorpaySignatureComparison ≠ CompareMethod.timingSafeEq := by
  decide

/-- Claim C3 (amended): for every input, the reference provider's
`verifyPayment` computes HMAC-SHA256 over
`gatewayOrderId + "|" + gatewayPaymentId` using the provider secret key
and compares the digest to the supplied signature using ordinary string
equality (JavaScript `===`, not a constant-time comparison), returning
`isValid` true exactly when they are equal; a mismatched signature yields
a normal result carrying the supplied payment id and signature, and never
raises an exception (the dispatched call is always `.ok`). -/
theorem razorpayVerifyPayment_spec (hmac : String → String → String)
    (keySecret : String) (p : VerifyPaymentParams) :
    ((razorpayVerifyPayment hmac keySecret p).isValid = true
      ↔ hmac keySecret (p.gatewayOrderId ++ "|" ++ p.gatewayPaymentId) = p.gatewaySignature)
    ∧ (razorpayVerifyPayment hmac keySecret p).paymentId = p.gatewayPaymentId
    ∧ (razorpayVerifyPayment hmac keySecret p).signature = p.gatewaySignature
    ∧ providerVerifyPayment hmac keySecret PaymentProvider.RAZORPAY p
        = Except.ok (razorpayVerifyPayment hmac keySecret p)
    ∧ razorpaySignatureComparison = CompareMethod.plainStringEq := by
  refine ⟨?_, rfl, rfl, rfl, rfl⟩
  simp only [razorpayVerifyPayment, beq_iff_eq]

/-! ## Claim C8 — active-provider resolution and provider pinning -/

/-- Claim C8: the provider selector returns the provider named by the
persisted `ACTIVE_PAYMENT_GATEWAY` setting, and falls back to the fixed
default `RAZORPAY` when the setting is absent or the datastore read
fails, never raising an error; and `verifyPaymentSignature` always
dispatches verification to the provider pinned on the order being
verified (`getPaymentProviderByName order.provider`), for every database
— in particular for every value of the active-gateway setting. -/
theorem provider_resolution_and_pinning :
    (∀ p : PaymentProvider, getActiveProviderFromDB (.ok (some p)) = p)
    ∧ getActiveProviderFromDB (.ok none) = PaymentProvider.RAZORPAY
    ∧ (∀ e : Unit, getActiveProviderFromDB (.error e) = PaymentProvider.RAZORPAY)
    ∧ (∀ (hmac : String → String → String) (keySecret : String) (userId : Nat)
        (pd : PaymentData) (db : DB) (order : Order),
        db.orders.find? (fun o =>
            o.gatewayOrderId == some (jsToStr (extractGatewayOrderId pd))) = some order →
        order.status = OrderStatus.PENDING →
        jsFalsy (extractGatewayOrderId pd) = false →
        (verifyPaymentSignature hmac keySecret userId pd db).verifyProvider
          = some (getPaymentProviderByName order.provider)) := by
  refine ⟨fun p => rfl, rfl, fun e => rfl, ?_⟩
  intro hmac keySecret userId pd db order hfind hstatus hfalsy
  simp only [verifyPaymentSignature, hfalsy, hfind, hstatus]
  simp only [Bool.false_eq_true, if_false]
  repeat' split
  all_goals first | rfl | simp_all

/-- An order pinned to PHONEPE for the C8 witness. -/
def orderC8 : Order :=
  { id := 1, userId := 1, courseId := 1, amount := 100, currency := "INR",
    status := OrderStatus.PENDING, provider := PaymentProvider.PHONEPE,
    gatewayOrderId := some "g1", createdAt := 0 }

/-- A store whose active gateway is RAZORPAY while the order is pinned to
PHONEPE, for the C8 witness. -/
def dbC8 : DB :=
  { courses := [], orders := [orderC8], enrollments := [], payments := [],
    carts := [], cartItems := [], activeGatewaySetting := some PaymentProvider.RAZORPAY,
    nextOrderId := 2, nextEnrollmentId := 1, nextPaymentId := 1 }

/-- The payload verifying order `g1`, for the C8 witness. -/
def pdC8 : PaymentData :=
  { razorpay_order_id := some "g1", razorpay_payment_id := some "p1",
    razorpay_signature := some "s1" }

/-- Witness for C8: the setting names PHONEPE → PHONEPE; a failed read →
RAZORPAY; and verification of an order pinned to PHONEPE dispatches to
PHONEPE even though the active setting is RAZORPAY. -/
theorem provider_resolution_and_pinning_witness :
    getActiveProviderFromDB (.ok (some PaymentProvider.PHONEPE)) = PaymentProvider.PHONEPE
    ∧ getActiveProviderFromDB (.error ()) = PaymentProvider.RAZORPAY
    ∧ (verifyPaymentSignature (fun _ m => m) "key" 1 pdC8 dbC8).verifyProvider
        = some PaymentProvider.PHONEPE := by
  refine ⟨provider_resolution_and_pinning.1 PaymentProvider.PHONEPE,
    provider_resolution_and_pinning.2.2.1 (), ?_⟩
  have h := provider_resolution_and_pinning.2.2.2 (fun _ m => m) "key" 1 pdC8 dbC8 orderC8
    (by decide) (by decide) (by decide)
  rw [h]
  decide

/-! ## Claim C2 — idempotency and race handling of verifyPaymentSignature -/

/-- Claim C2: when the order looked up by gateway order id is already
COMPLETED, `verifyPaymentSignature` returns a success result and leaves
the store untouched (so no additional Enrollment or Payment row); when
the order is FAILED it raises a `ValidationError`, again without writes;
and when the signature is valid but the enrollment already exists — the
unique-constraint violation inside the completion transaction — it
returns the "Already enrolled." success result with the transaction
rolled back. -/
theorem verifyPaymentSignature_idempotency (hmac : String → String → String)
    (keySecret : String) (userId : Nat) (pd : PaymentData) (db : DB) (order : Order)
    (hfalsy : jsFalsy (extractGatewayOrderId pd) = false)
    (hfind : db.orders.find? (fun o =>
        o.gatewayOrderId == some (jsToStr (extractGatewayOrderId pd))) = some order) :
    (order.status = OrderStatus.COMPLETED →
      (verifyPaymentSignature hmac keySecret userId pd db).res
          = .ok "Payment already processed."
      ∧ (verifyPaymentSignature hmac keySecret userId pd db).db = db)
    ∧ (order.status = OrderStatus.FAILED →
      (verifyPaymentSignature hmac keySecret userId pd db).res
          = .error (.validation "This order has failed. Please create a new order.")
      ∧ (verifyPaymentSignature hmac keySecret userId pd db).db = db)
    ∧ (∀ vr : VerifyPaymentResult,
      order.status = OrderStatus.PENDING →
      providerVerifyPayment hmac keySecret (getPaymentProviderByName order.provider)
          (singleVerifyParams pd) = .ok vr →
      vr.isValid = true →
      (enrollmentFor db order.userId order.courseId).isSome →
      (verifyPaymentSignature hmac keySecret userId pd db).res = .ok "Already enrolled."
      ∧ (verifyPaymentSignature hmac keySecret userId pd db).db = db) := by
  refine ⟨?_, ?_, ?_⟩
  · intro hstatus
    simp only [verifyPaymentSignature, hfalsy, hfind, hstatus, Bool.false_eq_true, if_false]
    exact ⟨rfl, rfl⟩
  · intro hstatus
    simp only [verifyPaymentSignature, hfalsy, hfind, hstatus, Bool.false_eq_true, if_false]
    simp
  · intro vr hstatus hvr hvalid henr
    simp only [verifyPaymentSignature, hfalsy, hfind, hstatus, hvr, Bool.false_eq_true,
      if_false]
    simp only [completeOrderTx, henr, if_true, hvalid, Bool.not_true, Bool.false_eq_true,
      if_false]
    simp

/-- COMPLETED order for the C2 witness. -/
def orderC2c : Order :=
  { id := 1, userId := 1, courseId := 2, amount := 100, currency := "INR",
    status := OrderStatus.COMPLETED, provider := PaymentProvider.RAZORPAY,
    gatewayOrderId := some "gc", createdAt := 0 }

/-- FAILED order for the C2 witness. -/
def orderC2f : Order :=
  { id := 2, userId := 1, courseId := 2, amount := 100, currency := "INR",
    status := OrderStatus.FAILED, provider := PaymentProvider.RAZORPAY,
    gatewayOrderId := some "gf", createdAt := 0 }

/-- PENDING order (course already enrolled) for the C2 witness. -/
def orderC2p : Order :=
  { id := 3, userId := 1, courseId := 3, amount := 100, currency := "INR",
    status := OrderStatus.PENDING, provider := PaymentProvider.RAZORPAY,
    gatewayOrderId := some "gp", createdAt := 0 }

/-- Store for the C2 witness: user 1 already holds the enrollment that
order 3 would create. -/
def dbC2 : DB :=
  { courses := [], orders := [orderC2c, orderC2f, orderC2p],
    enrollments := [{ id := 1, userId := 1, courseId := 3 }], payments := [],
    carts := [], cartItems := [], activeGatewaySetting := none,
    nextOrderId := 4, nextEnrollmentId := 2, nextPaymentId := 1 }

/-- Witness for C2, exercising all three facets on concrete payloads:
a COMPLETED order re-verifies as success with no writes, a FAILED order
rejects, and a valid signature racing an existing enrollment reports
"Already enrolled." with the transaction rolled back. -/
theorem verifyPaymentSignature_idempotency_witness :
    ((verifyPaymentSignature (fun _ m => m) "k" 1
        { razorpay_order_id := some "gc", razorpay_payment_id := some "p",
          razorpay_signature := some "s" } dbC2).res = .ok "Payment already processed.")
    ∧ ((verifyPaymentSignature (fun _ m => m) "k" 1
        { razorpay_order_id := some "gf", razorpay_payment_id := some "p",
          razorpay_signature := some "s" } dbC2).res
        = .error (.validation "This order has failed. Please create a new order."))
    ∧ ((verifyPaymentSignature (fun _ m => m) "k" 1
        { razorpay_order_id := some "gp", razorpay_payment_id := some "p",
          razorpay_signature := some "gp|p" } dbC2).res = .ok "Already enrolled.")
    ∧ ((verifyPaymentSignature (fun _ m => m) "k" 1
        { razorpay_order_id := some "gp", razorpay_payment_id := some "p",
          razorpay_signature := some "gp|p" } dbC2).db = dbC2) := by
  have h1 := (verifyPaymentSignature_idempotency (fun _ m => m) "k" 1
    { razorpay_order_id := some "gc", razorpay_payment_id := some "p",
      razorpay_signature := some "s" } dbC2 orderC2c (by decide) (by decide)).1 (by decide)
  have h2 := ((verifyPaymentSignature_idempotency (fun _ m => m) "k" 1
    { razorpay_order_id := some "gf", razorpay_payment_id := some "p",
      razorpay_signature := some "s" } dbC2 orderC2f (by decide) (by decide)).2.1 (by decide))
  have h3 := ((verifyPaymentSignature_idempotency (fun _ m => m) "k" 1
    { razorpay_order_id := some "gp", razorpay_payment_id := some "p",
      razorpay_signature := some "gp|p" } dbC2 orderC2p (by decide) (by decide)).2.2
    { isValid := true, paymentId := "p", signature := "gp|p" }
    (by decide) (by rfl) (by decide) (by decide))
  exact ⟨h1.1, h2.1, h3.1, h3.2⟩

/-! ## Claim C6 — gateway failure marks persisted orders FAILED -/

/-- Orders created by `cartNewOrders` all have ids at or above the
previous id counter. -/
theorem cartNewOrders_ids_ge (now : ℤ) (userId : Nat)
    (providerName : PaymentProvider) (courses : List Course) : ∀ (n : Nat),
    ∀ oo ∈ cartNewOrders now userId providerName n courses, n ≤ oo.id := by
  induction courses with
  | nil => intro n oo hoo; simp [cartNewOrders] at hoo
  | cons c cs ih =>
    intro n oo hoo
    simp only [cartNewOrders, List.mem_cons] at hoo
    rcases hoo with rfl | hoo
    · exact Nat.le_refl n
    · exact Nat.le_of_succ_le (ih (n + 1) oo hoo)

/-- A pre-existing order id is never listed among fresh order ids. -/
theorem contains_fresh_id_false {n : Nat} {new : List Order}
    (h : ∀ oo ∈ new, n ≤ oo.id) {b : Order} (hb : b.id < n) :
    ((new.map (fun o => o.id)).contains b.id) = false := by
  by_contra hc
  rw [Bool.not_eq_false, List.contains_iff_exists_mem_beq] at hc
  obtain ⟨x, hx, hbeq⟩ := hc
  rcases List.mem_map.mp hx with ⟨oo, hoo, rfl⟩
  have h1 := h oo hoo
  have h2 : b.id = oo.id := by simpa [beq_iff_eq] using hbeq
  omega

/-- When the gateway call of `buyNowCreate` fails, every freshly created
order (id at or above the previous counter) ends FAILED. -/
theorem buyNowCreate_gateway_failure (now : ℤ) (userId courseId : Nat)
    (userName userEmail : String)
    (gw : CreateOrderParams → Except AppError CreateOrderResult)
    (db : DB) (course : Course)
    (hfresh : ∀ o ∈ db.orders, o.id < db.nextOrderId)
    (herr : ∃ e, (buyNowCreate now userId courseId userName userEmail gw db course).res
        = .error e) :
    ∀ o ∈ (buyNowCreate now userId courseId userName userEmail gw db course).db.orders,
      db.nextOrderId ≤ o.id → o.status = OrderStatus.FAILED := by
  intro o ho hge
  obtain ⟨e, he⟩ := herr
  simp only [buyNowCreate] at he ho
  split at he
  · rename_i e1 heq
    simp only [heq, setOrderStatus] at ho
    rcases List.mem_map.mp ho with ⟨b, hb, rfl⟩
    rcases List.mem_append.mp hb with hbo | hbn
    · have hne : b.id ≠ db.nextOrderId := Nat.ne_of_lt (hfresh b hbo)
      simp only [beq_iff_eq, hne, if_false] at hge ⊢
      exact absurd hge (Nat.not_le.mpr (hfresh b hbo))
    · simp only [List.mem_singleton] at hbn
      subst hbn
      simp
  · rename_i g heq
    simp at he

/-- When the gateway call of `cartCheckoutCreate` fails, every freshly
created order ends FAILED. -/
theorem cartCheckoutCreate_gateway_failure (now : ℤ) (userId : Nat)
    (userName userEmail : String)
    (gw : CreateOrderParams → Except AppError CreateOrderResult)
    (db : DB) (courses : List Course)
    (hfresh : ∀ o ∈ db.orders, o.id < db.nextOrderId)
    (hcalls : (cartCheckoutCreate now userId userName userEmail gw db courses).gatewayCalls
        ≠ []) :
    ∀ o ∈ (cartCheckoutCreate now userId userName userEmail gw db courses).db.orders,
      db.nextOrderId ≤ o.id →
      (∃ e, (cartCheckoutCreate now userId userName userEmail gw db courses).res
          = .error e) →
      o.status = OrderStatus.FAILED := by
  intro o ho hge herr
  obtain ⟨e, he⟩ := herr
  revert he hcalls ho
  simp only [cartCheckoutCreate]
  repeat' split
  all_goals intro hcalls ho he
  · -- gateway-error branch
    rename_i cs c1 ct x e1 heq
    simp only [setOrdersFailed] at ho
    rcases List.mem_map.mp ho with ⟨b, hb, rfl⟩
    rcases List.mem_append.mp hb with hbo | hbn
    · have hcon := contains_fresh_id_false
        (cartNewOrders_ids_ge now userId
          (getPaymentProvider (Except.ok db.activeGatewaySetting)) (c1 :: ct) db.nextOrderId)
        (hfresh b hbo)
      simp only [hcon, if_false] at hge ⊢
      exact absurd hge (Nat.not_le.mpr (hfresh b hbo))
    · have hcon : (((cartNewOrders now userId
          (getPaymentProvider (Except.ok db.activeGatewaySetting)) db.nextOrderId
          (c1 :: ct)).map (fun oo => oo.id)).contains b.id) = true := by
        rw [List.contains_iff_exists_mem_beq]
        exact ⟨b.id, List.mem_map_of_mem _ hbn, by simp⟩
      simp only [hcon, if_true]
  · simp at he
  · exact absurd rfl hcalls

/-- Claim C6: if the gateway `createOrder` call fails after the local
order row(s) have been persisted as PENDING — i.e. the operation ends in
an error after having issued its provider call — then every order the
operation created (every order with id at or above the store's previous
id counter) has been updated to FAILED before the error is re-raised; the
operation never terminates with the error while leaving those orders
PENDING.  Stated for both `initiateBuyNowOrder` and
`initiateCartCheckout`. -/
theorem gateway_failure_marks_orders_failed (now : ℤ) (userId courseId : Nat)
    (userName userEmail : String)
    (gw : CreateOrderParams → Except AppError CreateOrderResult) (db : DB)
    (hfresh : ∀ o ∈ db.orders, o.id < db.nextOrderId) :
    ((∃ e, (initiateBuyNowOrder now userId courseId userName userEmail gw db).res
        = .error e) →
      (initiateBuyNowOrder now userId courseId userName userEmail gw db).gatewayCalls ≠ [] →
      ∀ o ∈ (initiateBuyNowOrder now userId courseId userName userEmail gw db).db.orders,
        db.nextOrderId ≤ o.id → o.status = OrderStatus.FAILED)
    ∧ ((∃ e, (initiateCartCheckout now userId userName userEmail gw db).res = .error e) →
      (initiateCartCheckout now userId userName userEmail gw db).gatewayCalls ≠ [] →
      ∀ o ∈ (initiateCartCheckout now userId userName userEmail gw db).db.orders,
        db.nextOrderId ≤ o.id → o.status = OrderStatus.FAILED) := by
  constructor
  · intro herr hcalls o ho hge
    revert herr hcalls ho
    simp only [initiateBuyNowOrder]
    repeat' split
    all_goals intro herr hcalls ho
    all_goals try (exact absurd rfl hcalls)
    all_goals
      exact buyNowCreate_gateway_failure now userId courseId userName userEmail
        gw db _ hfresh herr o ho hge
  · intro herr hcalls o ho hge
    revert herr hcalls ho
    simp only [initiateCartCheckout]
    repeat' split
    all_goals intro herr hcalls ho
    all_goals try (exact absurd rfl hcalls)
    all_goals
      exact cartCheckoutCreate_gateway_failure now userId userName userEmail
        gw db _ hfresh hcalls o ho hge herr

/-- A gateway stub that always fails, for the C6 witness. -/
def gwFailC6 : CreateOrderParams → Except AppError CreateOrderResult :=
  fun _ => .error (.internal "gw down")

/-- Published course for the C6 / C7 witnesses. -/
def courseC6 : Course :=
  { id := 7, title := "Course Seven", price := 1000, status := CourseStatus.PUBLISHED }

/-- Store for the C6 witness: one published course, nothing else. -/
def dbC6 : DB :=
  { courses := [courseC6], orders := [], enrollments := [], payments := [],
    carts := [], cartItems := [], activeGatewaySetting := none,
    nextOrderId := 1, nextEnrollmentId := 1, nextPaymentId := 1 }

/-- The order left behind by the failed C6 buy-now attempt. -/
def orderC6w : Order :=
  { id := 1, userId := 1, courseId := 7, amount := 1000, currency := "INR",
    status := OrderStatus.FAILED, provider := PaymentProvider.RAZORPAY,
    gatewayOrderId := none, createdAt := 0 }

/-- Witness for C6: a buy-now whose gateway call fails leaves exactly one
order behind, and it is FAILED, not PENDING. -/
theorem gateway_failure_marks_orders_failed_witness :
    orderC6w ∈ (initiateBuyNowOrder 0 1 7 "N" "E" gwFailC6 dbC6).db.orders
    ∧ orderC6w.status = OrderStatus.FAILED := by
  have h := (gateway_failure_marks_orders_failed 0 1 7 "N" "E" gwFailC6 dbC6
      (by decide)).1
    ⟨.internal "gw down", by rfl⟩ (by decide) orderC6w (by decide) (by decide)
  exact ⟨by decide, h⟩

/-! ## Claim C7 — the anti-duplicate pending-order window of buy-now -/

/-- Claim C7: when the newest PENDING order for the same (user, course)
pair is younger than the 1-minute window, `initiateBuyNowOrder` rejects
with a ValidationError carrying the "… Wait … min to retry …" message,
writes nothing, and issues no gateway call; when that newest PENDING
order is at least the window old (and the gateway succeeds), it creates a
new PENDING order under the next id while every pre-existing order —
including the old pending one — is left in the store unchanged. -/
theorem buyNow_antiDuplicate_window (now : ℤ) (userId courseId : Nat)
    (userName userEmail : String)
    (gw : CreateOrderParams → Except AppError CreateOrderResult)
    (db : DB) (course : Course) (po : Order)
    (hcourse : findCourse db courseId = some course)
    (hpub : course.status = CourseStatus.PUBLISHED)
    (hprice : ¬ course.price = 0)
    (hnoenr : ¬ (enrollmentFor db userId courseId).isSome = true)
    (hpo : newestPendingOrder db userId courseId = some po) :
    (now - po.createdAt < 60000 →
      (initiateBuyNowOrder now userId courseId userName userEmail gw db).res
        = .error (.validation (buyNowWaitMessage (jsFloorDiv (now - po.createdAt) 1000)
            (jsCeilDiv (60000 - (now - po.createdAt)) 60000)))
      ∧ (initiateBuyNowOrder now userId courseId userName userEmail gw db).db = db
      ∧ (initiateBuyNowOrder now userId courseId userName userEmail gw db).gatewayCalls
          = [])
    ∧ (¬ now - po.createdAt < 60000 →
      ∀ g : CreateOrderResult, (∀ p, gw p = .ok g) →
      getPaymentProvider (.ok db.activeGatewaySetting) = PaymentProvider.RAZORPAY →
      (∀ o ∈ db.orders, o.id < db.nextOrderId) →
      (∃ o2 ∈ (initiateBuyNowOrder now userId courseId userName userEmail gw db).db.orders,
          o2.id = db.nextOrderId ∧ o2.status = OrderStatus.PENDING
          ∧ o2.userId = userId ∧ o2.courseId = courseId)
      ∧ ∀ o ∈ db.orders,
          o ∈ (initiateBuyNowOrder now userId courseId userName userEmail gw db).db.orders) := by
  constructor
  · intro hlt
    simp only [initiateBuyNowOrder, hcourse, hpub, hprice, hnoenr, hpo, ne_eq,
      not_true_eq_false, Bool.false_eq_true, if_false, ite_false, ite_true,
      not_false_eq_true]
    rw [if_pos (by simpa using hlt)]
    refine ⟨?_, rfl, rfl⟩
    norm_num
  · intro hge g hgw hprov hfresh
    simp only [initiateBuyNowOrder, hcourse, hpub, hprice, hnoenr, hpo, ne_eq,
      not_true_eq_false, Bool.false_eq_true, if_false, ite_false, ite_true,
      not_false_eq_true]
    rw [if_neg (by simpa using hge)]
    simp only [buyNowCreate, hprov, providerCreateOrder, hgw]
    constructor
    · refine ⟨_, List.mem_map.mpr ⟨_, List.mem_append.mpr
        (Or.inr (List.mem_singleton.mpr rfl)), rfl⟩, ?_⟩
      simp only [setGatewayOrderId]
      simp
    · intro o ho
      simp only [setGatewayOrderId]
      have hne : o.id ≠ db.nextOrderId := Nat.ne_of_lt (hfresh o ho)
      refine List.mem_map.mpr ⟨o, List.mem_append.mpr (Or.inl ho), ?_⟩
      simp [hne]

/-- A gateway stub that always succeeds, for the C7 witness. -/
def gwC7 : CreateOrderParams → Except AppError CreateOrderResult :=
  fun _ => .ok { gatewayOrderId := "g1", amount := 100000, currency := "INR",
                 gatewayKeyId := "rzp_key", provider := PaymentProvider.RAZORPAY }

/-- The pending order created at time 0 for the C7 witness. -/
def poC7 : Order :=
  { id := 1, userId := 1, courseId := 7, amount := 1000, currency := "INR",
    status := OrderStatus.PENDING, provider := PaymentProvider.RAZORPAY,
    gatewayOrderId := some "g0", createdAt := 0 }

/-- Store for the C7 witness: course 7 (price 1000) and a PENDING order
for it created at time 0. -/
def dbC7 : DB :=
  { courses := [courseC6], orders := [poC7], enrollments := [], payments := [],
    carts := [], cartItems := [], activeGatewaySetting := none,
    nextOrderId := 2, nextEnrollmentId := 1, nextPaymentId := 1 }

/-- Witness for C7: re-initiating 30 s after the pending order is rejected
with the "wait" message and no gateway call; re-initiating after 61 s
succeeds, creating a second PENDING order while the old one is untouched. -/
theorem buyNow_antiDuplicate_window_witness :
    ((initiateBuyNowOrder 30000 1 7 "N" "E" gwC7 dbC7).res
      = .error (.validation (buyNowWaitMessage 30 1)))
    ∧ (initiateBuyNowOrder 30000 1 7 "N" "E" gwC7 dbC7).gatewayCalls = []
    ∧ (∃ o2 ∈ (initiateBuyNowOrder 61000 1 7 "N" "E" gwC7 dbC7).db.orders,
        o2.id = 2 ∧ o2.status = OrderStatus.PENDING ∧ o2.userId = 1 ∧ o2.courseId = 7)
    ∧ poC7 ∈ (initiateBuyNowOrder 61000 1 7 "N" "E" gwC7 dbC7).db.orders := by
  have ha := (buyNow_antiDuplicate_window 30000 1 7 "N" "E" gwC7 dbC7 courseC6 poC7
    (by decide) (by decide) (by norm_num [courseC6]) (by decide) (by decide)).1 (by decide)
  have hb := (buyNow_antiDuplicate_window 61000 1 7 "N" "E" gwC7 dbC7 courseC6 poC7
    (by decide) (by decide) (by norm_num [courseC6]) (by decide) (by decide)).2
    (by decide) _ (fun p => rfl) rfl (by decide)
  refine ⟨?_, ha.2.2, hb.1, hb.2 poC7 (by decide)⟩
  have hmsg : buyNowWaitMessage (jsFloorDiv (30000 - poC7.createdAt) 1000)
      (jsCeilDiv (60000 - (30000 - poC7.createdAt)) 60000) = buyNowWaitMessage 30 1 := by
    decide
  rw [ha.1, hmsg]

/-! ## Claim C1 — the order status state machine -/

/-- The allowed transitions of §4.3: stay put, or move out of PENDING
(to COMPLETED or FAILED). -/
def statusStep (s t : OrderStatus) : Prop := t = s ∨ s = OrderStatus.PENDING

/-- `statusStep` extended with the FAILED → COMPLETED transition that
`verifyCartPayment` can actually perform (its lookup has no FAILED
guard). -/
def statusStepCart (s t : OrderStatus) : Prop :=
  t = s ∨ s = OrderStatus.PENDING ∨ (s = OrderStatus.FAILED ∧ t = OrderStatus.COMPLETED)

/-- Relational well-formedness of the order table: primary keys are below
the id counter and unique, and `gatewayOrderId` is unique once set (the
schema's unique constraint). -/
def WellFormedDB (db : DB) : Prop :=
  (∀ o ∈ db.orders, o.id < db.nextOrderId)
  ∧ (db.orders.map (fun o => o.id)).Nodup
  ∧ (∀ o ∈ db.orders, ∀ o2 ∈ db.orders,
      o.gatewayOrderId.isSome = true → o.gatewayOrderId = o2.gatewayOrderId → o = o2)

/-- Every order present before an operation relates to every same-id order
present after it through `rel`. -/
def StepOk (rel : OrderStatus → OrderStatus → Prop) (db db2 : DB) : Prop :=
  ∀ o ∈ db.orders, ∀ o2 ∈ db2.orders, o.id = o2.id → rel o.status o2.status

/-- Master lemma: an operation whose final order table is obtained by
appending fresh rows and applying an id-preserving per-row update
satisfies `StepOk` as soon as the update respects `rel` on the
pre-existing rows. -/
theorem stepOk_of_map_append {rel : OrderStatus → OrderStatus → Prop}
    (db db2 : DB) (new : List Order) (f : Order → Order)
    (horders : db2.orders = (db.orders ++ new).map f)
    (hfid : ∀ o, (f o).id = o.id)
    (hnodup : (db.orders.map (fun o => o.id)).Nodup)
    (hfresh : ∀ o ∈ db.orders, ∀ o2 ∈ new, o.id ≠ o2.id)
    (hrel : ∀ o ∈ db.orders, rel o.status (f o).status) :
    StepOk rel db db2 := by
  intro o ho o2 ho2 hid
  rw [horders] at ho2
  rcases List.mem_map.mp ho2 with ⟨b, hb, rfl⟩
  rcases List.mem_append.mp hb with hbo | hbn
  · have hidb : b.id = o.id := by
      rw [← hfid b]
      exact hid.symm
    have hbo2 : b = o := List.inj_on_of_nodup_map hnodup hbo ho hidb
    subst hbo2
    exact hrel b hbo
  · exact absurd (hid.trans (hfid b)) (hfresh o ho b hbn)

/-- `StepOk` holds over an unchanged order table for any reflexive-enough
relation. -/
theorem stepOk_same (rel : OrderStatus → OrderStatus → Prop)
    (db : DB) (hnodup : (db.orders.map (fun o => o.id)).Nodup)
    (hrefl : ∀ s, rel s s) : StepOk rel db db := by
  intro o ho o2 ho2 hid
  have hbo2 : o = o2 := List.inj_on_of_nodup_map hnodup ho ho2 hid
  subst hbo2
  exact hrefl o.status

/-- `buyNowCreate` only ever creates a fresh PENDING order and moves it
(and nothing else) to FAILED on gateway failure. -/
theorem buyNowCreate_stepOk (now : ℤ) (userId courseId : Nat)
    (userName userEmail : String)
    (gw : CreateOrderParams → Except AppError CreateOrderResult)
    (db : DB) (course : Course)
    (hfresh : ∀ o ∈ db.orders, o.id < db.nextOrderId)
    (hnodup : (db.orders.map (fun o => o.id)).Nodup) :
    StepOk statusStep db
      (buyNowCreate now userId courseId userName userEmail gw db course).db := by
  simp only [buyNowCreate]
  split
  · refine stepOk_of_map_append db _ _ _ rfl ?_ hnodup ?_ ?_
    · intro o
      by_cases h : o.id = db.nextOrderId <;> simp [h]
    · intro o ho o2 ho2
      simp only [List.mem_singleton] at ho2
      subst ho2
      exact Nat.ne_of_lt (hfresh o ho)
    · intro o ho
      have hne : o.id ≠ db.nextOrderId := Nat.ne_of_lt (hfresh o ho)
      simp only [setOrderStatus, beq_iff_eq, hne, if_false]
      exact Or.inl rfl
  · refine stepOk_of_map_append db _ _ _ rfl ?_ hnodup ?_ ?_
    · intro o
      by_cases h : o.id = db.nextOrderId <;> simp [h]
    · intro o ho o2 ho2
      simp only [List.mem_singleton] at ho2
      subst ho2
      exact Nat.ne_of_lt (hfresh o ho)
    · intro o ho
      have hne : o.id ≠ db.nextOrderId := Nat.ne_of_lt (hfresh o ho)
      simp only [setGatewayOrderId, beq_iff_eq, hne, if_false]
      exact Or.inl rfl

/-- `initiateBuyNowOrder` respects the PENDING-only state machine. -/
theorem initiateBuyNowOrder_stepOk (now : ℤ) (userId courseId : Nat)
    (userName userEmail : String)
    (gw : CreateOrderParams → Except AppError CreateOrderResult)
    (db : DB)
    (hfresh : ∀ o ∈ db.orders, o.id < db.nextOrderId)
    (hnodup : (db.orders.map (fun o => o.id)).Nodup) :
    StepOk statusStep db
      (initiateBuyNowOrder now userId courseId userName userEmail gw db).db := by
  simp only [initiateBuyNowOrder]
  repeat' split
  all_goals
    first
    | exact stepOk_same _ db hnodup (fun s => Or.inl rfl)
    | exact buyNowCreate_stepOk now userId courseId userName userEmail gw db _
        hfresh hnodup

/-- `cancelOrder` only moves the caller's PENDING order to FAILED. -/
theorem cancelOrder_stepOk (userId orderId : Nat) (db : DB)
    (hnodup : (db.orders.map (fun o => o.id)).Nodup) :
    StepOk statusStep db (cancelOrder userId orderId db).db := by
  simp only [cancelOrder]
  split
  · exact stepOk_same _ db hnodup (fun s => Or.inl rfl)
  · rename_i x heq
    refine stepOk_of_map_append db _ [] _ (by rw [List.append_nil]; rfl) ?_ hnodup
      (by intro o ho o2 ho2; simp at ho2) ?_
    · intro o
      by_cases h : o.id = orderId <;> simp [h]
    · intro o ho
      by_cases h : o.id = orderId
      · have hx := List.mem_of_find?_eq_some heq
        have hpred := List.find?_some heq
        simp only [Bool.and_eq_true, beq_iff_eq] at hpred
        have hoeq : o = x := List.inj_on_of_nodup_map hnodup ho hx
          (by rw [h, hpred.1.1])
        simp only [beq_iff_eq, h, if_true]
        right
        rw [hoeq, hpred.2]
      · simp only [beq_iff_eq, h, if_false]
        exact Or.inl rfl

/-- `cartCheckoutCreate` only creates fresh PENDING orders and moves them
(and nothing else) to FAILED on gateway failure. -/
theorem cartCheckoutCreate_stepOk (now : ℤ) (userId : Nat)
    (userName userEmail : String)
    (gw : CreateOrderParams → Except AppError CreateOrderResult)
    (db : DB) (courses : List Course)
    (hfresh : ∀ o ∈ db.orders, o.id < db.nextOrderId)
    (hnodup : (db.orders.map (fun o => o.id)).Nodup) :
    StepOk statusStep db
      (cartCheckoutCreate now userId userName userEmail gw db courses).db := by
  simp only [cartCheckoutCreate]
  repeat' split
  · -- gateway-error branch: all fresh orders move to FAILED
    rename_i cs c1 ct x e1 heq
    refine stepOk_of_map_append db _
      (cartNewOrders now userId (getPaymentProvider (Except.ok db.activeGatewaySetting))
        db.nextOrderId (c1 :: ct)) _ rfl ?_ hnodup ?_ ?_
    · intro o
      dsimp only
      split <;> rfl
    · intro o ho o2 ho2
      have := cartNewOrders_ids_ge now userId
        (getPaymentProvider (Except.ok db.activeGatewaySetting)) (c1 :: ct)
        db.nextOrderId o2 ho2
      have h2 := hfresh o ho
      omega
    · intro o ho
      have hcon := contains_fresh_id_false
        (cartNewOrders_ids_ge now userId
          (getPaymentProvider (Except.ok db.activeGatewaySetting)) (c1 :: ct)
          db.nextOrderId)
        (hfresh o ho)
      simp only [setOrdersFailed, hcon, Bool.false_eq_true, if_false]
      exact Or.inl rfl
  · -- gateway-ok branch: only the first fresh order gains its gateway id
    rename_i cs c1 ct x g heq
    refine stepOk_of_map_append db _
      (cartNewOrders now userId (getPaymentProvider (Except.ok db.activeGatewaySetting))
        db.nextOrderId (c1 :: ct)) _ rfl ?_ hnodup ?_ ?_
    · intro o
      by_cases h : o.id = db.nextOrderId <;> simp [h]
    · intro o ho o2 ho2
      have := cartNewOrders_ids_ge now userId
        (getPaymentProvider (Except.ok db.activeGatewaySetting)) (c1 :: ct)
        db.nextOrderId o2 ho2
      have h2 := hfresh o ho
      omega
    · intro o ho
      by_cases h : o.id = db.nextOrderId <;>
        simp only [setGatewayOrderId, beq_iff_eq, h, if_true, if_false] <;>
        exact Or.inl rfl
  · -- empty-course branch: orders are only appended (and none are in fact)
    refine stepOk_of_map_append db _
      (cartNewOrders now userId (getPaymentProvider (Except.ok db.activeGatewaySetting))
        db.nextOrderId []) (fun o => o) (by simp) (fun o => rfl) hnodup ?_ ?_
    · intro o ho o2 ho2
      simp [cartNewOrders] at ho2
    · intro o ho
      exact Or.inl rfl

/-- `initiateCartCheckout` respects the PENDING-only state machine. -/
theorem initiateCartCheckout_stepOk (now : ℤ) (userId : Nat)
    (userName userEmail : String)
    (gw : CreateOrderParams → Except AppError CreateOrderResult) (db : DB)
    (hfresh : ∀ o ∈ db.orders, o.id < db.nextOrderId)
    (hnodup : (db.orders.map (fun o => o.id)).Nodup) :
    StepOk statusStep db
      (initiateCartCheckout now userId userName userEmail gw db).db := by
  simp only [initiateCartCheckout]
  repeat' split
  all_goals
    first
    | exact stepOk_same _ db hnodup (fun s => Or.inl rfl)
    | exact cartCheckoutCreate_stepOk now userId userName userEmail gw db _
        hfresh hnodup

/-- A successful completion transaction only touches the order table by
marking the verified order COMPLETED. -/
theorem completeOrderTx_ok_orders (db : DB) (order : Order)
    (vr : VerifyPaymentResult) (db2 : DB)
    (h : completeOrderTx db order vr = .ok db2) :
    db2.orders = (setOrderStatus db order.id OrderStatus.COMPLETED).orders := by
  simp only [completeOrderTx] at h
  split at h
  · exact absurd h (by simp)
  · split at h
    · injection h with h2
      subst h2
      rfl
    · injection h with h2
      subst h2
      rfl

/-- `verifyPaymentSignature` respects the PENDING-only state machine: the
order it touches is PENDING (COMPLETED and FAILED orders are returned or
rejected before any write). -/
theorem verifyPaymentSignature_stepOk (hmac : String → String → String)
    (keySecret : String) (userId : Nat) (pd : PaymentData) (db : DB)
    (hnodup : (db.orders.map (fun o => o.id)).Nodup) :
    StepOk statusStep db (verifyPaymentSignature hmac keySecret userId pd db).db := by
  simp only [verifyPaymentSignature]
  split
  · exact stepOk_same _ db hnodup (fun s => Or.inl rfl)
  · split
    · exact stepOk_same _ db hnodup (fun s => Or.inl rfl)
    · rename_i order heqFind
      split
      · exact stepOk_same _ db hnodup (fun s => Or.inl rfl)
      · rename_i hnc
        split
        · exact stepOk_same _ db hnodup (fun s => Or.inl rfl)
        · rename_i hnf
          have hpend : order.status = OrderStatus.PENDING := by
            cases h : order.status
            · rfl
            · exact absurd h hnc
            · exact absurd h hnf
          split
          · exact stepOk_same _ db hnodup (fun s => Or.inl rfl)
          · rename_i vr heqVr
            split
            · -- invalid signature: the PENDING order moves to FAILED
              refine stepOk_of_map_append db _ [] _ (by rw [List.append_nil]; rfl)
                ?_ hnodup (by intro o ho o2 ho2; simp at ho2) ?_
              · intro o
                by_cases h : o.id = order.id <;> simp [h]
              · intro o ho
                by_cases h : o.id = order.id
                · have horder := List.mem_of_find?_eq_some heqFind
                  have hoeq : o = order :=
                    List.inj_on_of_nodup_map hnodup ho horder h
                  simp only [setOrderStatus, beq_iff_eq, h, if_true]
                  right
                  rw [hoeq, hpend]
                · simp only [setOrderStatus, beq_iff_eq, h, if_false]
                  exact Or.inl rfl
            · -- valid signature: transaction commits or rolls back
              split
              · rename_i db2 heqTx
                have horders := completeOrderTx_ok_orders db order vr db2 heqTx
                refine stepOk_of_map_append db _ [] _
                  (by rw [List.append_nil]; exact horders) ?_ hnodup
                  (by intro o ho o2 ho2; simp at ho2) ?_
                · intro o
                  by_cases h : o.id = order.id <;> simp [setOrderStatus, h]
                · intro o ho
                  by_cases h : o.id = order.id
                  · have horder := List.mem_of_find?_eq_some heqFind
                    have hoeq : o = order :=
                      List.inj_on_of_nodup_map hnodup ho horder h
                    simp only [setOrderStatus, beq_iff_eq, h, if_true]
                    right
                    rw [hoeq, hpend]
                  · simp only [setOrderStatus, beq_iff_eq, h, if_false]
                    exact Or.inl rfl
              · exact stepOk_same _ db hnodup (fun s => Or.inl rfl)

/-- Orders sharing one gateway order id are a single row (schema unique
constraint), so if not all of them are COMPLETED, none is. -/
theorem goid_selection_not_completed (db : DB)
    (hwf3 : ∀ o ∈ db.orders, ∀ o2 ∈ db.orders,
      o.gatewayOrderId.isSome = true → o.gatewayOrderId = o2.gatewayOrderId → o = o2)
    (s : String)
    (hall : ¬ (db.orders.filter (fun o => o.gatewayOrderId == some s)).all
        (fun o => o.status == OrderStatus.COMPLETED) = true) :
    ∀ x ∈ db.orders.filter (fun o => o.gatewayOrderId == some s),
      x.status ≠ OrderStatus.COMPLETED := by
  intro x hx
  rw [Bool.not_eq_true, List.all_eq_false] at hall
  obtain ⟨y, hy, hyp⟩ := hall
  have hxm := List.mem_filter.mp hx
  have hym := List.mem_filter.mp hy
  have hxg : x.gatewayOrderId = some s := by simpa using hxm.2
  have hyg : y.gatewayOrderId = some s := by simpa using hym.2
  have hxy : x = y := hwf3 x hxm.1 y hym.1 (by rw [hxg]; rfl) (by rw [hxg, hyg])
  rw [hxy]
  simpa using hyp

/-- A committed cart completion transaction touches the order table
exactly by marking the listed sibling orders COMPLETED. -/
theorem completeCartOrdersLoop_ok_orders (vr : VerifyPaymentResult) :
    ∀ (os : List Order) (db db2 : DB),
    completeCartOrdersLoop vr db os = .ok db2 →
    db2.orders = db.orders.map (fun o =>
      if (os.map (fun x => x.id)).contains o.id then
        { o with status := OrderStatus.COMPLETED } else o) := by
  intro os
  induction os with
  | nil =>
    intro db db2 h
    injection h with h2
    subst h2
    rw [List.map_congr_left (g := fun o => o) (by intro a _; rfl), List.map_id']
  | cons o rest ih =>
    intro db db2 h
    simp only [completeCartOrdersLoop] at h
    split at h
    · exact absurd h (by simp)
    · have h2 := ih _ _ h
      rw [h2]
      show List.map _ (List.map _ db.orders) = _
      rw [List.map_map]
      refine List.map_congr_left ?_
      intro a _
      simp only [Function.comp_apply, setOrderStatus]
      by_cases hc : a.id = o.id
      · have hb : (a.id == o.id) = true := by simpa using hc
        simp only [beq_iff_eq, hc, if_true, List.map_cons, List.contains_cons, hb,
          Bool.true_or, if_true]
        by_cases hr : ((rest.map (fun x => x.id)).contains o.id) = true <;> simp [hr]
      · simp only [beq_iff_eq, hc, if_false, List.map_cons, List.contains_cons]
        have hb : (a.id == o.id) = false := by simpa using hc
        rw [hb]
        simp

/-- A committed cart completion transaction (including the cart clear)
touches the order table exactly by marking the sibling orders
COMPLETED. -/
theorem completeCartTx_ok_orders (db : DB) (orders : List Order)
    (vr : VerifyPaymentResult) (userId : Nat) (db2 : DB)
    (h : completeCartTx db orders vr userId = .ok db2) :
    db2.orders = db.orders.map (fun o =>
      if (orders.map (fun x => x.id)).contains o.id then
        { o with status := OrderStatus.COMPLETED } else o) := by
  simp only [completeCartTx] at h
  split at h
  · exact absurd h (by simp)
  · rename_i db1 heqLoop
    have hloop := completeCartOrdersLoop_ok_orders vr orders db db1 heqLoop
    split at h
    · injection h with h2
      subst h2
      exact hloop
    · injection h with h2
      subst h2
      exact hloop

/-- Marking a selection of non-COMPLETED orders uniformly FAILED or
COMPLETED respects the extended cart relation. -/
theorem stepOk_cart_mark (db : DB) (sel : List Order) (st : OrderStatus)
    (hnodup : (db.orders.map (fun o => o.id)).Nodup)
    (hsub : ∀ x ∈ sel, x ∈ db.orders)
    (hnc : ∀ x ∈ sel, x.status ≠ OrderStatus.COMPLETED)
    (hst : st = OrderStatus.FAILED ∨ st = OrderStatus.COMPLETED)
    (db2 : DB)
    (horders : db2.orders = db.orders.map (fun o =>
      if (sel.map (fun x => x.id)).contains o.id then { o with status := st } else o)) :
    StepOk statusStepCart db db2 := by
  refine stepOk_of_map_append db db2 [] _ (by rw [List.append_nil]; exact horders)
    ?_ hnodup (by intro o ho o2 ho2; simp at ho2) ?_
  · intro o
    dsimp only
    split <;> rfl
  · intro o ho
    dsimp only
    by_cases hc : ((sel.map (fun x => x.id)).contains o.id) = true
    · have hcc := hc
      rw [List.contains_iff_exists_mem_beq] at hcc
      obtain ⟨idv, hidv, hbeq⟩ := hcc
      rcases List.mem_map.mp hidv with ⟨y, hy, rfl⟩
      have hid : o.id = y.id := by simpa [beq_iff_eq] using hbeq
      have hoy : o = y := List.inj_on_of_nodup_map hnodup ho (hsub y hy) hid
      have hys : o.status ≠ OrderStatus.COMPLETED := by
        rw [hoy]
        exact hnc y hy
      rw [if_pos hc]
      rcases hst with rfl | rfl
      · cases hs : o.status
        · exact Or.inr (Or.inl rfl)
        · exact absurd hs hys
        · exact Or.inl rfl
      · cases hs : o.status
        · exact Or.inr (Or.inl rfl)
        · exact absurd hs hys
        · exact Or.inr (Or.inr ⟨rfl, rfl⟩)
    · rw [if_neg hc]
      exact Or.inl rfl

/-- `verifyCartPayment` respects the extended relation: PENDING orders may
complete or fail, FAILED orders may be re-completed by a validly signed
retry (no FAILED guard exists on this path), and COMPLETED orders are
never touched. -/
theorem verifyCartPayment_stepOk (hmac : String → String → String)
    (keySecret : String) (userId : Nat) (pd : PaymentData) (db : DB)
    (hwf : WellFormedDB db) :
    StepOk statusStepCart db (verifyCartPayment hmac keySecret userId pd db).db := by
  obtain ⟨hfresh, hnodup, hwf3⟩ := hwf
  have hrefl : ∀ s : OrderStatus, statusStepCart s s := fun s => Or.inl rfl
  simp only [verifyCartPayment]
  split
  · exact stepOk_same _ db hnodup hrefl
  · by_cases hsel : (db.orders.filter (fun o =>
        o.gatewayOrderId == some (jsToStr (extractGatewayOrderId pd)))).length = 1
        ∧ 1 < pd.orderIds.length
    · rw [if_pos hsel]
      split
      · exact stepOk_same _ db hnodup hrefl
      · rename_i xs o0 os0 heqSel
        have hsub : ∀ x ∈ db.orders.filter (fun o =>
            pd.orderIds.contains o.id && o.userId == userId
              && o.status == OrderStatus.PENDING), x ∈ db.orders :=
          fun x hx => (List.mem_filter.mp hx).1
        have hnc : ∀ x ∈ db.orders.filter (fun o =>
            pd.orderIds.contains o.id && o.userId == userId
              && o.status == OrderStatus.PENDING),
            x.status ≠ OrderStatus.COMPLETED := by
          intro x hx
          have hp := (List.mem_filter.mp hx).2
          simp only [Bool.and_eq_true, beq_iff_eq] at hp
          rw [hp.2]
          decide
        split
        · exact stepOk_same _ db hnodup hrefl
        · split
          · exact stepOk_same _ db hnodup hrefl
          · rename_i vr heqVr
            split
            · exact stepOk_cart_mark db _ OrderStatus.FAILED hnodup hsub hnc
                (Or.inl rfl) _ rfl
            · split
              · rename_i db2 heqTx
                exact stepOk_cart_mark db _ OrderStatus.COMPLETED hnodup hsub
                  hnc (Or.inr rfl) _
                  (completeCartTx_ok_orders db _ vr userId db2 heqTx)
              · exact stepOk_same _ db hnodup hrefl
    · rw [if_neg hsel]
      split
      · exact stepOk_same _ db hnodup hrefl
      · rename_i xs o0 os0 heqSel
        have hsub : ∀ x ∈ db.orders.filter (fun o =>
            o.gatewayOrderId == some (jsToStr (extractGatewayOrderId pd))),
            x ∈ db.orders :=
          fun x hx => (List.mem_filter.mp hx).1
        split
        · exact stepOk_same _ db hnodup hrefl
        · rename_i hall
          have hnc : ∀ x ∈ db.orders.filter (fun o =>
              o.gatewayOrderId == some (jsToStr (extractGatewayOrderId pd))),
              x.status ≠ OrderStatus.COMPLETED :=
            fun x hx => goid_selection_not_completed db hwf3
              (jsToStr (extractGatewayOrderId pd)) hall x hx
          split
          · exact stepOk_same _ db hnodup hrefl
          · rename_i vr heqVr
            split
            · exact stepOk_cart_mark db _ OrderStatus.FAILED hnodup hsub hnc
                (Or.inl rfl) _ rfl
            · split
              · rename_i db2 heqTx
                exact stepOk_cart_mark db _ OrderStatus.COMPLETED hnodup hsub
                  hnc (Or.inr rfl) _
                  (completeCartTx_ok_orders db _ vr userId db2 heqTx)
              · exact stepOk_same _ db hnodup hrefl

/-- Claim C1 (amended): over a well-formed store, `initiateBuyNowOrder`,
`verifyPaymentSignature`, `cancelOrder` and `initiateCartCheckout` only
ever transition an existing order PENDING → COMPLETED or PENDING →
FAILED (never out of COMPLETED or FAILED); `verifyCartPayment` obeys the
same relation extended by one extra transition, FAILED → COMPLETED,
which it can actually perform because its order lookup — unlike
`verifyPaymentSignature`'s — has no FAILED guard (see the
counterexample). -/
theorem order_status_transitions (db : DB) (hwf : WellFormedDB db) :
    (∀ (now : ℤ) (userId courseId : Nat) (userName userEmail : String)
      (gw : CreateOrderParams → Except AppError CreateOrderResult),
      StepOk statusStep db
        (initiateBuyNowOrder now userId courseId userName userEmail gw db).db)
    ∧ (∀ (hmac : String → String → String) (keySecret : String) (userId : Nat)
      (pd : PaymentData),
      StepOk statusStep db (verifyPaymentSignature hmac keySecret userId pd db).db)
    ∧ (∀ userId orderId : Nat, StepOk statusStep db (cancelOrder userId orderId db).db)
    ∧ (∀ (now : ℤ) (userId : Nat) (userName userEmail : String)
      (gw : CreateOrderParams → Except AppError CreateOrderResult),
      StepOk statusStep db
        (initiateCartCheckout now userId userName userEmail gw db).db)
    ∧ (∀ (hmac : String → String → String) (keySecret : String) (userId : Nat)
      (pd : PaymentData),
      StepOk statusStepCart db (verifyCartPayment hmac keySecret userId pd db).db) := by
  obtain ⟨hfresh, hnodup, hwf3⟩ := hwf
  refine ⟨?_, ?_, ?_, ?_, ?_⟩
  · intro now userId courseId userName userEmail gw
    exact initiateBuyNowOrder_stepOk now userId courseId userName userEmail gw db
      hfresh hnodup
  · intro hmac keySecret userId pd
    exact verifyPaymentSignature_stepOk hmac keySecret userId pd db hnodup
  · intro userId orderId
    exact cancelOrder_stepOk userId orderId db hnodup
  · intro now userId userName userEmail gw
    exact initiateCartCheckout_stepOk now userId userName userEmail gw db hfresh hnodup
  · intro hmac keySecret userId pd
    exact verifyCartPayment_stepOk hmac keySecret userId pd db ⟨hfresh, hnodup, hwf3⟩

/-- The FAILED order for the C1 counterexample (it still holds its gateway
order id, as any order FAILED by an earlier invalid-signature attempt or
user cancellation does). -/
def orderC1cex : Order :=
  { id := 1, userId := 1, courseId := 1, amount := 100, currency := "INR",
    status := OrderStatus.FAILED, provider := PaymentProvider.RAZORPAY,
    gatewayOrderId := some "g1", createdAt := 0 }

/-- Store for the C1 counterexample. -/
def dbC1cex : DB :=
  { courses := [], orders := [orderC1cex], enrollments := [], payments := [],
    carts := [], cartItems := [], activeGatewaySetting := none,
    nextOrderId := 2, nextEnrollmentId := 1, nextPaymentId := 1 }

/-- Counterexample to C1 as frozen: `verifyCartPayment`, presented with a
validly signed payload for a FAILED cart order, moves that order out of
the FAILED state to COMPLETED.  (The single-order `verifyPaymentSignature`
rejects FAILED orders; the cart path never checks.)  The store is
well-formed, the payload is the normal client callback, and the signature
is exactly the one the pinned provider computes. -/
theorem verifyCartPayment_completes_failed_order :
    WellFormedDB dbC1cex
    ∧ ((dbC1cex.orders.find? (fun o => o.id == 1)).map Order.status
        = some OrderStatus.FAILED)
    ∧ ((((verifyCartPayment (fun k m => k ++ "#" ++ m) "k" 1
          { razorpay_order_id := some "g1", razorpay_payment_id := some "p1",
            razorpay_signature := some "k#g1|p1" } dbC1cex).db).orders.find?
          (fun o => o.id == 1)).map Order.status = some OrderStatus.COMPLETED) := by
  refine ⟨by unfold WellFormedDB; decide, by decide, by decide⟩

/-- Store for the C1 witness: one PENDING order of user 1. -/
def dbC1w : DB :=
  { courses := [courseC6], orders := [poC7], enrollments := [], payments := [],
    carts := [], cartItems := [], activeGatewaySetting := none,
    nextOrderId := 2, nextEnrollmentId := 1, nextPaymentId := 1 }

/-- Witness for the amended C1: a concrete well-formed store on which the
state-machine theorem applies to a cancel call and to a cart
verification. -/
theorem order_status_transitions_witness :
    WellFormedDB dbC1w
    ∧ StepOk statusStep dbC1w (cancelOrder 1 1 dbC1w).db
    ∧ StepOk statusStepCart dbC1w
        (verifyCartPayment (fun _ m => m) "k" 1
          { razorpay_order_id := some "g0" } dbC1w).db := by
  have hwf : WellFormedDB dbC1w := by
    unfold WellFormedDB
    refine ⟨by decide, by decide, by decide⟩
  exact ⟨hwf, (order_status_transitions dbC1w hwf).2.2.1 1 1,
    (order_status_transitions dbC1w hwf).2.2.2.2 (fun _ m => m) "k" 1
      { razorpay_order_id := some "g0" }⟩

/-! ## Claim C5 — cart checkout creates per-course orders with a single
charge, and cart verification completes them all -/

/-- The enrollment rows the cart completion transaction inserts, one per
sibling order, ids allocated in sequence. -/
def cartTxEnrollments : Nat → List Order → List Enrollment
  | _, [] => []
  | n, o :: rest =>
    ({ id := n, userId := o.userId, courseId := o.courseId } : Enrollment)
      :: cartTxEnrollments (n + 1) rest

/-- The payment rows the cart completion transaction inserts, one per
sibling order, ids allocated in sequence. -/
def cartTxPayments (vr : VerifyPaymentResult) : Nat → Nat → List Order → List Payment
  | _, _, [] => []
  | ne, np, o :: rest =>
    ({ id := np, userId := o.userId, courseId := o.courseId, amount := o.amount,
       provider := o.provider, gatewayPaymentId := vr.paymentId,
       gatewaySignature := vr.signature, orderId := o.id,
       enrollmentId := ne } : Payment)
      :: cartTxPayments vr (ne + 1) (np + 1) rest

theorem cartTxEnrollments_length (os : List Order) : ∀ (n : Nat),
    (cartTxEnrollments n os).length = os.length := by
  induction os with
  | nil => intro n; rfl
  | cons o rest ih => intro n; simp [cartTxEnrollments, ih (n + 1)]

theorem cartTxEnrollments_mem (os : List Order) : ∀ (n : Nat),
    ∀ e ∈ cartTxEnrollments n os, ∃ o ∈ os, e.userId = o.userId ∧ e.courseId = o.courseId := by
  induction os with
  | nil => intro n e he; simp [cartTxEnrollments] at he
  | cons o rest ih =>
    intro n e he
    simp only [cartTxEnrollments, List.mem_cons] at he
    rcases he with rfl | he
    · exact ⟨o, by simp, rfl, rfl⟩
    · obtain ⟨o2, ho2, h1, h2⟩ := ih (n + 1) e he
      exact ⟨o2, by simp [ho2], h1, h2⟩

theorem cartTxPayments_length (vr : VerifyPaymentResult) (os : List Order) :
    ∀ (ne np : Nat), (cartTxPayments vr ne np os).length = os.length := by
  induction os with
  | nil => intro ne np; rfl
  | cons o rest ih => intro ne np; simp [cartTxPayments, ih (ne + 1) (np + 1)]

theorem cartTxPayments_mem (vr : VerifyPaymentResult) (os : List Order) :
    ∀ (ne np : Nat), ∀ p ∈ cartTxPayments vr ne np os, ∃ o ∈ os, p.orderId = o.id := by
  induction os with
  | nil => intro ne np p hp; simp [cartTxPayments] at hp
  | cons o rest ih =>
    intro ne np p hp
    simp only [cartTxPayments, List.mem_cons] at hp
    rcases hp with rfl | hp
    · exact ⟨o, by simp, rfl⟩
    · obtain ⟨o2, ho2, h1⟩ := ih (ne + 1) (np + 1) p hp
      exact ⟨o2, by simp [ho2], h1⟩

/-- `courses.reduce((sum, c) => sum + c.price, 0)` computes the sum of the
cart course prices. -/
theorem foldl_jqAdd_sum (l : List Course) : ∀ (a : ℚ),
    l.foldl (fun sum c => jqAdd sum c.price) a = a + (l.map (fun c => c.price)).sum := by
  induction l with
  | nil => intro a; simp
  | cons c cs ih =>
    intro a
    rw [List.foldl_cons, ih (jqAdd a c.price), jqAdd_eq]
    simp only [List.map_cons, List.sum_cons]
    ring

/-- Every order row `initiateCartCheckout` creates is a PENDING order of
the requesting user, carries the resolved provider and no gateway order
id yet, and references a cart course. -/
theorem cartNewOrders_fields (now : ℤ) (userId : Nat) (prov : PaymentProvider)
    (cs : List Course) : ∀ (n : Nat), ∀ o ∈ cartNewOrders now userId prov n cs,
      o.userId = userId ∧ o.status = OrderStatus.PENDING ∧ o.provider = prov
        ∧ o.gatewayOrderId = none ∧ o.courseId ∈ cs.map (fun c => c.id) := by
  induction cs with
  | nil => intro n o ho; simp [cartNewOrders] at ho
  | cons c cs ih =>
    intro n o ho
    simp only [cartNewOrders, List.mem_cons] at ho
    rcases ho with rfl | ho
    · exact ⟨rfl, rfl, rfl, rfl, by simp⟩
    · obtain ⟨h1, h2, h3, h4, h5⟩ := ih (n + 1) o ho
      exact ⟨h1, h2, h3, h4, by simp [h5]⟩

/-- One order row is created per cart course. -/
theorem cartNewOrders_length (now : ℤ) (userId : Nat) (prov : PaymentProvider)
    (cs : List Course) : ∀ (n : Nat),
    (cartNewOrders now userId prov n cs).length = cs.length := by
  induction cs with
  | nil => intro n; rfl
  | cons c cs ih => intro n; simp [cartNewOrders, ih (n + 1)]

/-- The `(userId, courseId)` pairs of the fresh cart orders are the cart
courses, each paired with the requesting user. -/
theorem cartNewOrders_pairs (now : ℤ) (userId : Nat) (prov : PaymentProvider)
    (cs : List Course) : ∀ (n : Nat),
    (cartNewOrders now userId prov n cs).map (fun o => (o.userId, o.courseId))
      = cs.map (fun c => (userId, c.id)) := by
  induction cs with
  | nil => intro n; rfl
  | cons c cs ih => intro n; simp [cartNewOrders, ih (n + 1)]

/-- When no sibling order's `(user, course)` pair is already enrolled and
the pairs are pairwise distinct, the cart completion loop commits. -/
theorem completeCartOrdersLoop_succeeds (vr : VerifyPaymentResult) (os : List Order) :
    ∀ (db : DB),
    (∀ o ∈ os, enrollmentFor db o.userId o.courseId = none) →
    ((os.map (fun o => (o.userId, o.courseId))).Nodup) →
    ∃ db2, completeCartOrdersLoop vr db os = .ok db2 := by
  induction os with
  | nil => intro db _ _; exact ⟨db, rfl⟩
  | cons o rest ih =>
    intro db hfresh hnodup
    have h0 : enrollmentFor db o.userId o.courseId = none := hfresh o (by simp)
    rw [List.map_cons, List.nodup_cons] at hnodup
    simp only [completeCartOrdersLoop, h0, Option.isSome_none, Bool.false_eq_true, if_false]
    refine ih _ ?_ hnodup.2
    intro r hr
    have h1 : enrollmentFor db r.userId r.courseId = none := hfresh r (by simp [hr])
    have hpair : ¬((o.userId, o.courseId) = (r.userId, r.courseId)) := by
      intro hEq
      have hmem : (r.userId, r.courseId) ∈ rest.map (fun x => (x.userId, x.courseId)) :=
        List.mem_map_of_mem _ hr
      rw [← hEq] at hmem
      exact hnodup.1 hmem
    have hfalse : (o.userId == r.userId && o.courseId == r.courseId) = false := by
      by_contra hb
      rw [Bool.not_eq_false, Bool.and_eq_true, beq_iff_eq, beq_iff_eq] at hb
      exact hpair (by rw [hb.1, hb.2])
    simp only [enrollmentFor, setOrderStatus] at h1 ⊢
    rw [List.find?_append, h1]
    simp [List.find?, hfalse]

/-- A committed cart completion loop appends exactly one enrollment row
and one payment row per sibling order, and leaves the cart tables and the
course table untouched. -/
theorem completeCartOrdersLoop_ok_rows (vr : VerifyPaymentResult) :
    ∀ (os : List Order) (db db2 : DB),
    completeCartOrdersLoop vr db os = .ok db2 →
    db2.enrollments = db.enrollments ++ cartTxEnrollments db.nextEnrollmentId os
    ∧ db2.payments = db.payments ++ cartTxPayments vr db.nextEnrollmentId db.nextPaymentId os
    ∧ db2.carts = db.carts ∧ db2.cartItems = db.cartItems ∧ db2.courses = db.courses := by
  intro os
  induction os with
  | nil =>
    intro db db2 h
    injection h with h2
    subst h2
    simp [cartTxEnrollments, cartTxPayments]
  | cons o rest ih =>
    intro db db2 h
    simp only [completeCartOrdersLoop] at h
    split at h
    · exact absurd h (by simp)
    · obtain ⟨he, hp, hc, hci, hcs⟩ := ih _ _ h
      refine ⟨?_, ?_, ?_, ?_, ?_⟩
      · rw [he]; simp [setOrderStatus, cartTxEnrollments]
      · rw [hp]; simp [setOrderStatus, cartTxPayments]
      · rw [hc]; rfl
      · rw [hci]; rfl
      · rw [hcs]; rfl

/-- With the active provider resolving to Razorpay and a successful
gateway, `cartCheckoutCreate` issues exactly one charge for the combined
total, persists one PENDING order per course and stores the gateway order
id on the first created order. -/
theorem cartCheckoutCreate_success (now : ℤ) (userId : Nat)
    (userName userEmail : String)
    (gw : CreateOrderParams → Except AppError CreateOrderResult)
    (g : CreateOrderResult) (db : DB) (c0 : Course) (crest : List Course)
    (hprov : getPaymentProvider (.ok db.activeGatewaySetting) = PaymentProvider.RAZORPAY)
    (hgw : ∀ p, gw p = .ok g) :
    cartCheckoutCreate now userId userName userEmail gw db (c0 :: crest) =
      ⟨.ok { gatewayOrderId := g.gatewayOrderId, amount := g.amount,
             currency := g.currency, key := g.gatewayKeyId,
             provider := PaymentProvider.RAZORPAY,
             internalOrderIds := (cartNewOrders now userId PaymentProvider.RAZORPAY
               db.nextOrderId (c0 :: crest)).map (fun o => o.id),
             courseCount := (c0 :: crest).length,
             courseTitles := joinTitles ((c0 :: crest).map (fun c => c.title)),
             userEmail := userEmail, userName := userName },
        setGatewayOrderId
          { db with
            orders := db.orders ++ cartNewOrders now userId PaymentProvider.RAZORPAY
              db.nextOrderId (c0 :: crest),
            nextOrderId := db.nextOrderId + (c0 :: crest).length }
          db.nextOrderId g.gatewayOrderId,
        [{ amount := (c0 :: crest).foldl (fun sum c => jqAdd sum c.price) 0,
           currency := "INR", orderId := db.nextOrderId, courseId := c0.id,
           courseTitle := "Cart: " ++ toString (c0 :: crest).length ++ " courses",
           userEmail := userEmail, userName := userName }], none⟩ := by
  simp only [cartCheckoutCreate, hprov, providerCreateOrder, hgw]

/-- When the cart is non-empty, every cart course is purchasable (published,
paid, not yet enrolled) and no recent PENDING order blocks the retry
window, `initiateCartCheckout` reaches its order-creation step. -/
theorem initiateCartCheckout_reduces (now : ℤ) (userId : Nat)
    (userName userEmail : String)
    (gw : CreateOrderParams → Except AppError CreateOrderResult)
    (db : DB) (cart : Cart) (items : List CartItem) (courses : List Course)
    (hcart : db.carts.find? (fun c => c.userId == userId) = some cart)
    (hitems : db.cartItems.filter (fun it => it.cartId == cart.id) = items)
    (hine : items ≠ [])
    (hcourses : items.filterMap (fun it => findCourse db it.courseId) = courses)
    (hok : ∀ c ∈ courses, c.status = CourseStatus.PUBLISHED ∧ ¬c.price = 0
      ∧ enrollmentFor db userId c.id = none)
    (hpend : db.orders.find? (fun o =>
        o.userId == userId && (courses.map (fun c => c.id)).contains o.courseId
        && o.status == OrderStatus.PENDING
        && decide (now - 1 * 60 * 1000 < o.createdAt)) = none) :
    initiateCartCheckout now userId userName userEmail gw db
      = cartCheckoutCreate now userId userName userEmail gw db courses := by
  have hne : items.isEmpty = false := by
    rw [List.isEmpty_eq_false]; exact hine
  have hunpub : courses.filter (fun c => c.status ≠ CourseStatus.PUBLISHED) = [] :=
    List.filter_eq_nil_iff.mpr (fun c hc => by simp [(hok c hc).1])
  have hfree : courses.filter (fun c => c.price = 0) = [] :=
    List.filter_eq_nil_iff.mpr (fun c hc => by simp [(hok c hc).2.1])
  have henr : courses.filter (fun c => (enrollmentFor db userId c.id).isSome) = [] :=
    List.filter_eq_nil_iff.mpr (fun c hc => by simp [(hok c hc).2.2])
  simp only [initiateCartCheckout, hcart, hitems, hcourses, hne, hunpub, hfree, henr,
    hpend, List.isEmpty_nil, Bool.not_true, Bool.false_eq_true, if_false]

/-- A successful `verifyCartPayment` run over a post-checkout store: the
anchor order carries the shared gateway order id, its siblings are the
client-supplied order ids, and the signature matches.  In one committed
transaction every sibling order is marked COMPLETED, exactly one
enrollment and one payment row are inserted per order, and the
requesting user's cart is cleared. -/
theorem verifyCartPayment_success (hmac : String → String → String)
    (keySecret : String) (userId : Nat) (s pid : String)
    (db0 db1 : DB) (anchor : Order) (rest : List Order) (cart : Cart)
    (pd : PaymentData)
    (hdb1orders : db1.orders = db0.orders ++ anchor :: rest)
    (hdb1enr : db1.enrollments = db0.enrollments)
    (hdb1pay : db1.payments = db0.payments)
    (hdb1carts : db1.carts = db0.carts)
    (hdb1items : db1.cartItems = db0.cartItems)
    (hcart : db0.carts.find? (fun c => c.userId == userId) = some cart)
    (hanchor : anchor.gatewayOrderId = some s ∧ anchor.userId = userId
      ∧ anchor.status = OrderStatus.PENDING ∧ anchor.provider = PaymentProvider.RAZORPAY)
    (hrest : ∀ o ∈ rest, o.gatewayOrderId = none ∧ o.userId = userId
      ∧ o.status = OrderStatus.PENDING)
    (hold : ∀ o ∈ db0.orders, ¬o.gatewayOrderId = some s
      ∧ (((anchor :: rest).map (fun x => x.id)).contains o.id) = false)
    (hfreshpairs : ∀ o ∈ anchor :: rest, enrollmentFor db0 o.userId o.courseId = none)
    (hnodup : ((anchor :: rest).map (fun o => (o.userId, o.courseId))).Nodup)
    (hpd1 : extractGatewayOrderId pd = some s) (hs : ¬s = "")
    (hpd2 : pd.orderIds = (anchor :: rest).map (fun o => o.id))
    (hvp : cartVerifyParams pd =
      { gatewayOrderId := s
        gatewayPaymentId := pid
        gatewaySignature := hmac keySecret (s ++ "|" ++ pid) }) :
    (verifyCartPayment hmac keySecret userId pd db1).res
      = .ok ("Enrolled in " ++ toString (anchor :: rest).length ++ " courses!")
    ∧ (verifyCartPayment hmac keySecret userId pd db1).db.enrollments
      = db0.enrollments ++ cartTxEnrollments db1.nextEnrollmentId (anchor :: rest)
    ∧ (verifyCartPayment hmac keySecret userId pd db1).db.payments
      = db0.payments ++ cartTxPayments
          { isValid := true
            paymentId := pid
            signature := hmac keySecret (s ++ "|" ++ pid) }
          db1.nextEnrollmentId db1.nextPaymentId (anchor :: rest)
    ∧ (verifyCartPayment hmac keySecret userId pd db1).db.orders
      = db1.orders.map (fun o =>
          if (((anchor :: rest).map (fun x => x.id)).contains o.id) then
            { o with status := OrderStatus.COMPLETED } else o)
    ∧ (verifyCartPayment hmac keySecret userId pd db1).db.cartItems
      = db0.cartItems.filter (fun it => !(it.cartId == cart.id)) := by
  have hsb : (s == "") = false := by simpa using hs
  have hfound : db1.orders.filter (fun o => o.gatewayOrderId == some s) = [anchor] := by
    rw [hdb1orders, List.filter_append, List.filter_cons]
    have hA : db0.orders.filter (fun o => o.gatewayOrderId == some s) = [] :=
      List.filter_eq_nil_iff.mpr (fun o ho => by simp [(hold o ho).1])
    have hB : rest.filter (fun o => o.gatewayOrderId == some s) = [] :=
      List.filter_eq_nil_iff.mpr (fun o ho => by simp [(hrest o ho).1])
    have hAn : (anchor.gatewayOrderId == some s) = true := by simp [hanchor.1]
    rw [hA, hB]
    simp [hAn]
  have hoidlen : pd.orderIds.length = 1 + rest.length := by
    rw [hpd2]; simp [Nat.add_comm]
  have hsel : (if (db1.orders.filter (fun o => o.gatewayOrderId == some s)).length = 1
        ∧ 1 < pd.orderIds.length then
        db1.orders.filter (fun o =>
          pd.orderIds.contains o.id && o.userId == userId
            && o.status == OrderStatus.PENDING)
      else db1.orders.filter (fun o => o.gatewayOrderId == some s))
      = anchor :: rest := by
    have hkeep : ∀ x ∈ anchor :: rest,
        (pd.orderIds.contains x.id && x.userId == userId
          && x.status == OrderStatus.PENDING) = true := by
      intro x hx
      have hcont : pd.orderIds.contains x.id = true := by
        rw [hpd2]
        exact List.contains_iff_exists_mem_beq.mpr
          ⟨x.id, List.mem_map_of_mem _ hx, by simp⟩
      have hu : (x.userId == userId) = true := by
        rcases List.mem_cons.mp hx with rfl | hx2
        · simp [hanchor.2.1]
        · simp [(hrest x hx2).2.1]
      have hst : (x.status == OrderStatus.PENDING) = true := by
        rcases List.mem_cons.mp hx with rfl | hx2
        · simp [hanchor.2.2.1]
        · simp [(hrest x hx2).2.2]
      rw [hcont, hu, hst]
      rfl
    rcases rest with _ | ⟨r1, rrest⟩
    · rw [if_neg (by simp [hoidlen])]
      exact hfound
    · rw [if_pos ⟨by rw [hfound]; rfl, by rw [hoidlen, List.length_cons]; omega⟩]
      rw [hdb1orders, List.filter_append]
      have hC : db0.orders.filter (fun o =>
          pd.orderIds.contains o.id && o.userId == userId
            && o.status == OrderStatus.PENDING) = [] :=
        List.filter_eq_nil_iff.mpr (fun o ho => by
          rw [hpd2]
          have h2 := (hold o ho).2
          rw [h2]
          simp)
      have hD : (anchor :: r1 :: rrest).filter (fun o =>
          pd.orderIds.contains o.id && o.userId == userId
            && o.status == OrderStatus.PENDING) = anchor :: r1 :: rrest :=
        List.filter_eq_self.mpr hkeep
      rw [hC, hD]
      rfl
  have hall : ((anchor :: rest).all (fun o => o.status == OrderStatus.COMPLETED)) = false := by
    simp [List.all_cons, hanchor.2.2.1]
  have hfresh1 : ∀ o ∈ anchor :: rest, enrollmentFor db1 o.userId o.courseId = none := by
    intro o ho
    have h2 := hfreshpairs o ho
    simp only [enrollmentFor, hdb1enr]
    simpa [enrollmentFor] using h2
  obtain ⟨db2, hloop⟩ := completeCartOrdersLoop_succeeds
    { isValid := true
      paymentId := pid
      signature := hmac keySecret (s ++ "|" ++ pid) }
    (anchor :: rest) db1 hfresh1 hnodup
  obtain ⟨hE2, hP2, hC2, hCI2, hCS2⟩ := completeCartOrdersLoop_ok_rows
    { isValid := true
      paymentId := pid
      signature := hmac keySecret (s ++ "|" ++ pid) }
    (anchor :: rest) db1 db2 hloop
  have hOrd2 := completeCartOrdersLoop_ok_orders
    { isValid := true
      paymentId := pid
      signature := hmac keySecret (s ++ "|" ++ pid) }
    (anchor :: rest) db1 db2 hloop
  have hctx : completeCartTx db1 (anchor :: rest)
      { isValid := true
        paymentId := pid
        signature := hmac keySecret (s ++ "|" ++ pid) } userId
      = .ok { db2 with cartItems := db2.cartItems.filter (fun it =>
          !(it.cartId == cart.id)) } := by
    simp only [completeCartTx, hloop]
    rw [hC2, hdb1carts, hcart]
  simp only [verifyCartPayment, hpd1, jsFalsy, jsToStr, hsb, Bool.false_eq_true, if_false,
    hsel, hall, getPaymentProviderByName, hvp, providerVerifyPayment, razorpayVerifyPayment,
    hanchor.2.2.2, hctx]
  simp only [beq_self_eq_true, Bool.not_true, Bool.false_eq_true, if_false, hctx]
  refine ⟨by trivial, ?_, ?_, ?_, ?_⟩
  · show db2.enrollments = _
    rw [hE2, hdb1enr]
  · show db2.payments = _
    rw [hP2, hdb1pay]
  · show db2.orders = _
    exact hOrd2
  · show db2.cartItems.filter _ = _
    rw [hCI2, hdb1items]

/-- The first order row created by `initiateCartCheckout` once the
returned gateway order id has been stamped on it (`orders[0]` after the
`gatewayOrderId` update). -/
def firstCartOrder (now : ℤ) (userId : Nat) (goid : String) (nextId : Nat)
    (c0 : Course) : Order :=
  { id := nextId
    userId := userId
    courseId := c0.id
    amount := c0.price
    currency := "INR"
    status := OrderStatus.PENDING
    provider := PaymentProvider.RAZORPAY
    gatewayOrderId := some goid
    createdAt := now }

/-- Claim C5: `initiateCartCheckout` creates one PENDING order per cart
course (all on the resolved provider), issues exactly one gateway charge
whose amount is the sum of all cart course prices, and stores the
returned gateway order id only on the first created order; a successful
`verifyCartPayment` then marks every sibling order COMPLETED, inserts
exactly one enrollment and one payment row per order, and clears the
user's entire cart. -/
theorem cart_checkout_and_verify
    (now : ℤ) (userId : Nat) (userName userEmail : String)
    (gw : CreateOrderParams → Except AppError CreateOrderResult)
    (g : CreateOrderResult) (hmac : String → String → String)
    (keySecret pid : String)
    (db : DB) (cart : Cart) (items : List CartItem) (c0 : Course) (crest : List Course)
    (hcart : db.carts.find? (fun c => c.userId == userId) = some cart)
    (hitems : db.cartItems.filter (fun it => it.cartId == cart.id) = items)
    (hine : items ≠ [])
    (hcourses : items.filterMap (fun it => findCourse db it.courseId) = c0 :: crest)
    (hok : ∀ c ∈ c0 :: crest, c.status = CourseStatus.PUBLISHED ∧ ¬c.price = 0
      ∧ enrollmentFor db userId c.id = none)
    (hcid : ((c0 :: crest).map (fun c => c.id)).Nodup)
    (hpend : db.orders.find? (fun o =>
        o.userId == userId && ((c0 :: crest).map (fun c => c.id)).contains o.courseId
        && o.status == OrderStatus.PENDING
        && decide (now - 1 * 60 * 1000 < o.createdAt)) = none)
    (hprov : getPaymentProvider (.ok db.activeGatewaySetting) = PaymentProvider.RAZORPAY)
    (hgw : ∀ p, gw p = .ok g)
    (hids : ∀ o ∈ db.orders, o.id < db.nextOrderId)
    (hgoid : ∀ o ∈ db.orders, ¬o.gatewayOrderId = some g.gatewayOrderId)
    (hs : ¬g.gatewayOrderId = "") (hpid : ¬pid = "")
    (hsig : ¬hmac keySecret (g.gatewayOrderId ++ "|" ++ pid) = "") :
    ((initiateCartCheckout now userId userName userEmail gw db).gatewayCalls.map
        (fun p => p.amount))
      = [((c0 :: crest).map (fun c => c.price)).sum]
    ∧ (∃ data, (initiateCartCheckout now userId userName userEmail gw db).res = .ok data
        ∧ data.internalOrderIds = (cartNewOrders now userId PaymentProvider.RAZORPAY
            db.nextOrderId (c0 :: crest)).map (fun o => o.id)
        ∧ data.gatewayOrderId = g.gatewayOrderId)
    ∧ (initiateCartCheckout now userId userName userEmail gw db).db.orders
      = db.orders ++ (cartNewOrders now userId PaymentProvider.RAZORPAY db.nextOrderId
          (c0 :: crest)).map (fun o =>
            if o.id == db.nextOrderId then
              { o with gatewayOrderId := some g.gatewayOrderId } else o)
    ∧ (cartNewOrders now userId PaymentProvider.RAZORPAY db.nextOrderId
        (c0 :: crest)).length = (c0 :: crest).length
    ∧ (∀ o ∈ cartNewOrders now userId PaymentProvider.RAZORPAY db.nextOrderId (c0 :: crest),
        o.status = OrderStatus.PENDING ∧ o.provider = PaymentProvider.RAZORPAY
          ∧ o.gatewayOrderId = none)
    ∧ (verifyCartPayment hmac keySecret userId
        { razorpay_order_id := some g.gatewayOrderId
          razorpay_payment_id := some pid
          razorpay_signature := some (hmac keySecret (g.gatewayOrderId ++ "|" ++ pid))
          orderIds := (cartNewOrders now userId PaymentProvider.RAZORPAY
            db.nextOrderId (c0 :: crest)).map (fun o => o.id) }
        (initiateCartCheckout now userId userName userEmail gw db).db).res
      = .ok ("Enrolled in " ++ toString (c0 :: crest).length ++ " courses!")
    ∧ (∃ newEnrs, (verifyCartPayment hmac keySecret userId
        { razorpay_order_id := some g.gatewayOrderId
          razorpay_payment_id := some pid
          razorpay_signature := some (hmac keySecret (g.gatewayOrderId ++ "|" ++ pid))
          orderIds := (cartNewOrders now userId PaymentProvider.RAZORPAY
            db.nextOrderId (c0 :: crest)).map (fun o => o.id) }
        (initiateCartCheckout now userId userName userEmail gw db).db).db.enrollments
          = db.enrollments ++ newEnrs
        ∧ newEnrs.length = (c0 :: crest).length
        ∧ ∀ e ∈ newEnrs, e.userId = userId
            ∧ e.courseId ∈ (c0 :: crest).map (fun c => c.id))
    ∧ (∃ newPays, (verifyCartPayment hmac keySecret userId
        { razorpay_order_id := some g.gatewayOrderId
          razorpay_payment_id := some pid
          razorpay_signature := some (hmac keySecret (g.gatewayOrderId ++ "|" ++ pid))
          orderIds := (cartNewOrders now userId PaymentProvider.RAZORPAY
            db.nextOrderId (c0 :: crest)).map (fun o => o.id) }
        (initiateCartCheckout now userId userName userEmail gw db).db).db.payments
          = db.payments ++ newPays
        ∧ newPays.length = (c0 :: crest).length)
    ∧ (∀ o2 ∈ (verifyCartPayment hmac keySecret userId
        { razorpay_order_id := some g.gatewayOrderId
          razorpay_payment_id := some pid
          razorpay_signature := some (hmac keySecret (g.gatewayOrderId ++ "|" ++ pid))
          orderIds := (cartNewOrders now userId PaymentProvider.RAZORPAY
            db.nextOrderId (c0 :: crest)).map (fun o => o.id) }
        (initiateCartCheckout now userId userName userEmail gw db).db).db.orders,
        o2.id ∈ (cartNewOrders now userId PaymentProvider.RAZORPAY
            db.nextOrderId (c0 :: crest)).map (fun o => o.id)
          → o2.status = OrderStatus.COMPLETED)
    ∧ (verifyCartPayment hmac keySecret userId
        { razorpay_order_id := some g.gatewayOrderId
          razorpay_payment_id := some pid
          razorpay_signature := some (hmac keySecret (g.gatewayOrderId ++ "|" ++ pid))
          orderIds := (cartNewOrders now userId PaymentProvider.RAZORPAY
            db.nextOrderId (c0 :: crest)).map (fun o => o.id) }
        (initiateCartCheckout now userId userName userEmail gw db).db).db.cartItems
      = db.cartItems.filter (fun it => !(it.cartId == cart.id)) := by
  have h1 : initiateCartCheckout now userId userName userEmail gw db
      = cartCheckoutCreate now userId userName userEmail gw db (c0 :: crest) :=
    initiateCartCheckout_reduces now userId userName userEmail gw db cart items (c0 :: crest)
      hcart hitems hine hcourses hok hpend
  have h2 := cartCheckoutCreate_success now userId userName userEmail gw g db c0 crest hprov hgw
  rw [h1, h2]
  dsimp only
  have hmapOld : db.orders.map (fun o =>
      if o.id == db.nextOrderId then
        { o with gatewayOrderId := some g.gatewayOrderId } else o) = db.orders := by
    rw [List.map_congr_left (g := fun o => o) (fun a ha => by
      have h3 := hids a ha
      have hb : (a.id == db.nextOrderId) = false := by
        simp only [beq_eq_false_iff_ne, ne_eq]
        omega
      simp [hb]), List.map_id']
  have hrestids : ∀ oo ∈ cartNewOrders now userId PaymentProvider.RAZORPAY (db.nextOrderId + 1) crest, db.nextOrderId + 1 ≤ oo.id :=
    cartNewOrders_ids_ge now userId PaymentProvider.RAZORPAY crest (db.nextOrderId + 1)
  have hmapNew : (cartNewOrders now userId PaymentProvider.RAZORPAY db.nextOrderId
      (c0 :: crest)).map (fun o =>
        if o.id == db.nextOrderId then
          { o with gatewayOrderId := some g.gatewayOrderId } else o)
      = firstCartOrder now userId g.gatewayOrderId db.nextOrderId c0 :: cartNewOrders now userId PaymentProvider.RAZORPAY (db.nextOrderId + 1) crest := by
    simp only [cartNewOrders, List.map_cons]
    congr 1
    · simp [firstCartOrder]
    · rw [List.map_congr_left (g := fun o => o) (fun a ha => by
        have h3 := hrestids a ha
        have hb : (a.id == db.nextOrderId) = false := by
          simp only [beq_eq_false_iff_ne, ne_eq]
          omega
        simp [hb]), List.map_id']
  have hordersE : ((setGatewayOrderId
      { db with
        orders := db.orders ++ cartNewOrders now userId PaymentProvider.RAZORPAY
          db.nextOrderId (c0 :: crest)
        nextOrderId := db.nextOrderId + (c0 :: crest).length }
      db.nextOrderId g.gatewayOrderId)).orders
      = db.orders ++ firstCartOrder now userId g.gatewayOrderId db.nextOrderId c0 :: cartNewOrders now userId PaymentProvider.RAZORPAY (db.nextOrderId + 1) crest := by
    simp only [setGatewayOrderId]
    rw [List.map_append, hmapOld, hmapNew]
  have hallids : ∀ oo ∈ firstCartOrder now userId g.gatewayOrderId db.nextOrderId c0 :: cartNewOrders now userId PaymentProvider.RAZORPAY (db.nextOrderId + 1) crest,
      db.nextOrderId ≤ oo.id := by
    intro oo hoo
    rcases List.mem_cons.mp hoo with rfl | h3
    · exact Nat.le_refl _
    · exact Nat.le_of_succ_le (hrestids oo h3)
  have hfreshpairsP : ∀ o ∈ firstCartOrder now userId g.gatewayOrderId db.nextOrderId c0 :: cartNewOrders now userId PaymentProvider.RAZORPAY (db.nextOrderId + 1) crest,
      enrollmentFor db o.userId o.courseId = none := by
    intro o ho
    rcases List.mem_cons.mp ho with rfl | h3
    · exact (hok c0 (by simp)).2.2
    · have F := cartNewOrders_fields now userId PaymentProvider.RAZORPAY crest
        (db.nextOrderId + 1) o h3
      obtain ⟨c, hc, hceq⟩ := List.mem_map.mp F.2.2.2.2
      rw [F.1, ← hceq]
      exact (hok c (by simp [hc])).2.2
  have hnodupP : ((firstCartOrder now userId g.gatewayOrderId db.nextOrderId c0 :: cartNewOrders now userId PaymentProvider.RAZORPAY (db.nextOrderId + 1) crest).map
        (fun o => (o.userId, o.courseId))).Nodup := by
    have hinj : Function.Injective (fun i : Nat => (userId, i)) := by
      intro a b hab
      simpa using hab
    have h3 := hcid.map hinj
    rw [List.map_map] at h3
    rw [List.map_cons, cartNewOrders_pairs now userId PaymentProvider.RAZORPAY crest
      (db.nextOrderId + 1)]
    simpa [firstCartOrder] using h3
  have hpd1P : extractGatewayOrderId
      { razorpay_order_id := some g.gatewayOrderId
        razorpay_payment_id := some pid
        razorpay_signature := some (hmac keySecret (g.gatewayOrderId ++ "|" ++ pid))
        orderIds := (cartNewOrders now userId PaymentProvider.RAZORPAY
          db.nextOrderId (c0 :: crest)).map (fun o => o.id) }
      = some g.gatewayOrderId := by
    simp [extractGatewayOrderId, jsOrStr, hs]
  have hpd2P : PaymentData.orderIds
      { razorpay_order_id := some g.gatewayOrderId
        razorpay_payment_id := some pid
        razorpay_signature := some (hmac keySecret (g.gatewayOrderId ++ "|" ++ pid))
        orderIds := (cartNewOrders now userId PaymentProvider.RAZORPAY
          db.nextOrderId (c0 :: crest)).map (fun o => o.id) }
      = (firstCartOrder now userId g.gatewayOrderId db.nextOrderId c0 :: cartNewOrders now userId PaymentProvider.RAZORPAY (db.nextOrderId + 1) crest).map (fun o => o.id) := by
    show (cartNewOrders now userId PaymentProvider.RAZORPAY db.nextOrderId
      (c0 :: crest)).map (fun o => o.id) = _
    simp only [cartNewOrders, List.map_cons, firstCartOrder]
  have hvpP : cartVerifyParams
      { razorpay_order_id := some g.gatewayOrderId
        razorpay_payment_id := some pid
        razorpay_signature := some (hmac keySecret (g.gatewayOrderId ++ "|" ++ pid))
        orderIds := (cartNewOrders now userId PaymentProvider.RAZORPAY
          db.nextOrderId (c0 :: crest)).map (fun o => o.id) } =
      { gatewayOrderId := g.gatewayOrderId
        gatewayPaymentId := pid
        gatewaySignature := hmac keySecret (g.gatewayOrderId ++ "|" ++ pid) } := by
    simp [cartVerifyParams, extractGatewayOrderId, jsOrStr, jsToStr, hs, hpid, hsig]
  obtain ⟨p6, p7, p8, p9, p10⟩ := verifyCartPayment_success hmac keySecret userId
    g.gatewayOrderId pid db
    (setGatewayOrderId
      { db with
        orders := db.orders ++ cartNewOrders now userId PaymentProvider.RAZORPAY
          db.nextOrderId (c0 :: crest)
        nextOrderId := db.nextOrderId + (c0 :: crest).length }
      db.nextOrderId g.gatewayOrderId)
    (firstCartOrder now userId g.gatewayOrderId db.nextOrderId c0)
    (cartNewOrders now userId PaymentProvider.RAZORPAY (db.nextOrderId + 1) crest)
    cart
    { razorpay_order_id := some g.gatewayOrderId
      razorpay_payment_id := some pid
      razorpay_signature := some (hmac keySecret (g.gatewayOrderId ++ "|" ++ pid))
      orderIds := (cartNewOrders now userId PaymentProvider.RAZORPAY
        db.nextOrderId (c0 :: crest)).map (fun o => o.id) }
    hordersE rfl rfl rfl rfl hcart ⟨rfl, rfl, rfl, rfl⟩
    (fun o ho =>
      ⟨(cartNewOrders_fields now userId PaymentProvider.RAZORPAY crest
          (db.nextOrderId + 1) o ho).2.2.2.1,
       (cartNewOrders_fields now userId PaymentProvider.RAZORPAY crest
          (db.nextOrderId + 1) o ho).1,
       (cartNewOrders_fields now userId PaymentProvider.RAZORPAY crest
          (db.nextOrderId + 1) o ho).2.1⟩)
    (fun o ho => ⟨hgoid o ho, contains_fresh_id_false hallids (hids o ho)⟩)
    hfreshpairsP hnodupP hpd1P hs hpd2P hvpP
  have hlen2 : (firstCartOrder now userId g.gatewayOrderId db.nextOrderId c0 :: cartNewOrders now userId PaymentProvider.RAZORPAY (db.nextOrderId + 1) crest).length = (c0 :: crest).length := by
    simp [cartNewOrders_length now userId PaymentProvider.RAZORPAY crest (db.nextOrderId + 1)]
  rw [hlen2] at p6
  refine ⟨?_, ⟨_, rfl, rfl, rfl⟩, ?_, ?_, ?_, p6, ⟨_, p7, ?_, ?_⟩, ⟨_, p8, ?_⟩, ?_, p10⟩
  · show [List.foldl (fun sum c => jqAdd sum c.price) 0 (c0 :: crest)] = _
    rw [foldl_jqAdd_sum (c0 :: crest) 0, zero_add]
  · rw [hmapNew]
    exact hordersE
  · exact cartNewOrders_length now userId PaymentProvider.RAZORPAY (c0 :: crest) db.nextOrderId
  · intro o ho
    have F := cartNewOrders_fields now userId PaymentProvider.RAZORPAY (c0 :: crest)
      db.nextOrderId o ho
    exact ⟨F.2.1, F.2.2.1, F.2.2.2.1⟩
  · exact (cartTxEnrollments_length _ _).trans hlen2
  · intro e he
    obtain ⟨o, ho, h3, h4⟩ := cartTxEnrollments_mem _ _ e he
    rcases List.mem_cons.mp ho with rfl | h5
    · exact ⟨by rw [h3]; rfl, by rw [h4]; simp [firstCartOrder]⟩
    · have F := cartNewOrders_fields now userId PaymentProvider.RAZORPAY crest
        (db.nextOrderId + 1) o h5
      refine ⟨h3.trans F.1, ?_⟩
      rw [h4, List.map_cons]
      exact List.mem_cons_of_mem _ F.2.2.2.2
  · exact (cartTxPayments_length _ _ _ _).trans hlen2
  · intro o2 ho2 hid
    rw [p9] at ho2
    obtain ⟨b, hb, rfl⟩ := List.mem_map.mp ho2
    have hidb : ((fun o =>
        if (((firstCartOrder now userId g.gatewayOrderId db.nextOrderId c0 :: cartNewOrders now userId PaymentProvider.RAZORPAY (db.nextOrderId + 1) crest).map (fun x => x.id)).contains o.id) then
          { o with status := OrderStatus.COMPLETED } else o) b).id = b.id := by
      dsimp only
      split <;> rfl
    rw [hidb] at hid
    have hsame : (cartNewOrders now userId PaymentProvider.RAZORPAY db.nextOrderId
        (c0 :: crest)).map (fun o => o.id)
        = (firstCartOrder now userId g.gatewayOrderId db.nextOrderId c0 :: cartNewOrders now userId PaymentProvider.RAZORPAY (db.nextOrderId + 1) crest).map (fun x => x.id) := by
      simp only [cartNewOrders, List.map_cons, firstCartOrder]
    rw [hsame] at hid
    have hcond : b.id = (firstCartOrder now userId g.gatewayOrderId db.nextOrderId c0).id
        ∨ ∃ a ∈ cartNewOrders now userId PaymentProvider.RAZORPAY (db.nextOrderId + 1) crest,
          a.id = b.id := by
      simpa using hid
    simp [hcond]

/-- Witness data: three published paid courses totalling 2400. -/
def courseC5a : Course :=
  { id := 1, title := "Course A", price := 1000, status := CourseStatus.PUBLISHED }

def courseC5b : Course :=
  { id := 2, title := "Course B", price := 900, status := CourseStatus.PUBLISHED }

def courseC5c : Course :=
  { id := 3, title := "Course C", price := 500, status := CourseStatus.PUBLISHED }

/-- Witness data: the buyer's cart. -/
def cartC5 : Cart := { id := 10, userId := 7 }

/-- Witness data: a store with the three-course cart and no prior orders. -/
def dbC5 : DB :=
  { courses := [courseC5a, courseC5b, courseC5c]
    orders := []
    enrollments := []
    payments := []
    carts := [cartC5]
    cartItems := [{ cartId := 10, courseId := 1 }, { cartId := 10, courseId := 2 },
      { cartId := 10, courseId := 3 }]
    activeGatewaySetting := some PaymentProvider.RAZORPAY
    nextOrderId := 100
    nextEnrollmentId := 1
    nextPaymentId := 1 }

/-- Witness data: the gateway's successful charge. -/
def gResC5 : CreateOrderResult :=
  { gatewayOrderId := "order_abc"
    amount := 2400
    currency := "INR"
    gatewayKeyId := "key_test"
    provider := PaymentProvider.RAZORPAY }

/-- Witness data: a gateway that accepts every charge. -/
def gwC5 : CreateOrderParams → Except AppError CreateOrderResult := fun _ => .ok gResC5

/-- Witness data: a concrete keyed digest function. -/
def hmacC5 : String → String → String := fun k m => k ++ "#" ++ m

/-- Witness for claim C5: checking out the 3-course cart totalling 2400
issues one gateway charge of 2400 and creates orders 100, 101, 102;
verifying the payment enrolls the buyer in all 3 courses and empties the
cart. -/
theorem cart_checkout_and_verify_witness :
    (initiateCartCheckout 0 7 "User" "user@example.com" gwC5 dbC5).gatewayCalls.map
        (fun p => p.amount) = [2400]
    ∧ (∃ data, (initiateCartCheckout 0 7 "User" "user@example.com" gwC5 dbC5).res
        = .ok data ∧ data.internalOrderIds = [100, 101, 102])
    ∧ (verifyCartPayment hmacC5 "secret" 7
        { razorpay_order_id := some "order_abc"
          razorpay_payment_id := some "pay_1"
          razorpay_signature := some (hmacC5 "secret" ("order_abc" ++ "|" ++ "pay_1"))
          orderIds := (cartNewOrders 0 7 PaymentProvider.RAZORPAY 100
            [courseC5a, courseC5b, courseC5c]).map (fun o => o.id) }
        (initiateCartCheckout 0 7 "User" "user@example.com" gwC5 dbC5).db).res
      = .ok "Enrolled in 3 courses!"
    ∧ (∃ newEnrs, (verifyCartPayment hmacC5 "secret" 7
        { razorpay_order_id := some "order_abc"
          razorpay_payment_id := some "pay_1"
          razorpay_signature := some (hmacC5 "secret" ("order_abc" ++ "|" ++ "pay_1"))
          orderIds := (cartNewOrders 0 7 PaymentProvider.RAZORPAY 100
            [courseC5a, courseC5b, courseC5c]).map (fun o => o.id) }
        (initiateCartCheckout 0 7 "User" "user@example.com" gwC5 dbC5).db).db.enrollments
        = dbC5.enrollments ++ newEnrs ∧ newEnrs.length = 3)
    ∧ (verifyCartPayment hmacC5 "secret" 7
        { razorpay_order_id := some "order_abc"
          razorpay_payment_id := some "pay_1"
          razorpay_signature := some (hmacC5 "secret" ("order_abc" ++ "|" ++ "pay_1"))
          orderIds := (cartNewOrders 0 7 PaymentProvider.RAZORPAY 100
            [courseC5a, courseC5b, courseC5c]).map (fun o => o.id) }
        (initiateCartCheckout 0 7 "User" "user@example.com" gwC5 dbC5).db).db.cartItems
      = [] := by
  have H := cart_checkout_and_verify 0 7 "User" "user@example.com" gwC5 gResC5 hmacC5
    "secret" "pay_1" dbC5 cartC5
    [{ cartId := 10, courseId := 1 }, { cartId := 10, courseId := 2 },
      { cartId := 10, courseId := 3 }]
    courseC5a [courseC5b, courseC5c]
    (by decide) (by decide) (by decide) (by decide) (by decide) (by decide) (by decide)
    (by decide) (fun p => rfl) (by decide) (by decide) (by decide) (by decide) (by decide)
  obtain ⟨w1, ⟨data, hd1, hd2, hd3⟩, w3, w4, w5, w6, ⟨enrs, he1, he2, he3⟩,
    ⟨pays, hpy1, hpy2⟩, w9, w10⟩ := H
  refine ⟨?_, ⟨data, hd1, ?_⟩, ?_, ⟨enrs, ?_, ?_⟩, ?_⟩
  · exact w1.trans (by norm_num [courseC5a, courseC5b, courseC5c, List.sum_cons, List.sum_nil])
  · exact hd2.trans (by decide)
  · exact w6
  · exact he1
  · exact he2.trans (by decide)
  · exact w10.trans (by decide)
